import Mathlib

/-!
Shallow embedding of the zero-downtime-deployment orchestrator
(`src/deployment/aws_helpers.py`, `src/deployment/deployment.py`,
`src/scripts/deploy_app.py`).

The cloud control plane is modelled as a deterministic oracle (`CloudEnv`)
whose answer to each remote operation may depend on how many times that
operation has been invoked so far (`CallCounts`).  Every helper of
`AWSHelper` is translated as a function that threads the call counters and
returns, besides its Python return value, the list of observable events it
produced (remote calls, log lines, sleeps).  The `tenacity` retry decorator
`retry(stop=stop_after_attempt(3), wait=wait_exponential(multiplier=1, min=2,
max=10), retry=retry_if_exception_type(ClientError))` that wraps every helper
is translated as `tenacityRetry`.  Loops (`wait_for_instance_refresh`,
`verify_old_instances_termination`) take explicit fuel; a `none` result means
the fuel did not suffice to reach the loop exit.
-/

/-- Error taxonomy of the source: `ClientError` (transient, retried by the
decorator), `ValueError` (raised on not-found lookups, never retried),
any other exception (never retried), and tenacity's `RetryError`, raised by
the decorator once `stop_after_attempt(3)` is reached, wrapping the last
attempt's error. -/
inductive AwsError : Type where
  | clientError (msg : String)
  | valueError (msg : String)
  | otherError (msg : String)
  | retryErr (last : AwsError)
deriving DecidableEq, Repr

/-- `retry_if_exception_type(ClientError)`: only `ClientError` is retried. -/
def AwsError.isRetryable : AwsError → Bool
  | .clientError _ => true
  | _ => false

/-- Launch template reference stored in the group snapshot:
`{'LaunchTemplateId': ..., 'Version': ...}`. -/
structure LaunchTemplateRef where
  launchTemplateId : String
  version : String
deriving DecidableEq, Repr

/-- The fleet group snapshot returned by `describe_auto_scaling_groups`
(the fields the program reads). -/
structure AsgDetails where
  autoScalingGroupName : String
  launchTemplate : LaunchTemplateRef
  desiredCapacity : Int
  minSize : Int
  maxSize : Int
deriving DecidableEq, Repr

/-- One entry of `describe_auto_scaling_instances` (the fields the program
reads). -/
structure InstanceRecord where
  instanceId : String
  autoScalingGroupName : String
  lifecycleState : String
deriving DecidableEq, Repr

/-- The `instance_refresh` configuration block passed through to
`start_instance_refresh`. -/
structure InstanceRefreshConfig where
  minHealthyPercentage : Int
  maxHealthyPercentage : Int
  instanceWarmup : Int
  skipMatching : Bool
deriving DecidableEq, Repr

/-- The deployment configuration fields read by `Deployment.__init__`. -/
structure DeployConfig where
  autoScalingGroup : String
  amiId : String
  desiredCapacity : Int
  minSize : Int
  maxSize : Int
  instanceRefresh : InstanceRefreshConfig
deriving DecidableEq, Repr

/-- Python return value of `update_auto_scaling_group`: `None`
(`noUpdate`), the freshly created launch-template version number (an
`int`), or the snapshot's existing version token (a `str`), matching
`return new_version if 'new_version' in locals() else launch_template_version`. -/
inductive VersionResult : Type where
  | noUpdate
  | newVersion (n : Int)
  | existingVersion (v : String)
deriving DecidableEq, Repr

/-- A remote control-plane call, with the arguments the program passes. -/
inductive AwsCall : Type where
  | describeAsg (name : String)
  | describeLtVersion (ltId version : String)
  | createLtVersion (ltId sourceVersion imageId : String)
  | updateAsg (name : String) (desired minSize maxSize : Int)
      (lt : Option LaunchTemplateRef)
  | startRefresh (name : String) (cfg : InstanceRefreshConfig)
  | describeRefresh (name refreshId : String)
  | listInstances
  | terminateInstance (instanceId : String)
deriving DecidableEq, Repr

/-- A call mutates control-plane state iff it is one of
`create_launch_template_version`, `update_auto_scaling_group`,
`start_instance_refresh`, `terminate_instances`. -/
def AwsCall.isMutating : AwsCall → Bool
  | .createLtVersion _ _ _ => true
  | .updateAsg _ _ _ _ _ => true
  | .startRefresh _ _ => true
  | .terminateInstance _ => true
  | _ => false

/-- Observable events of a run: remote calls, the data observed from
status / instance-listing queries, `time.sleep` calls and log lines. -/
inductive RunEvent : Type where
  | call (c : AwsCall)
  | observedStatus (status : String)
  | observedInstances (instances : List InstanceRecord)
  | sleep (seconds : Nat)
  | logInfo (msg : String)
  | logError (msg : String)
deriving DecidableEq, Repr

/-- An event is a mutating control-plane call. -/
def RunEvent.isMutatingEv : RunEvent → Bool
  | .call c => c.isMutating
  | _ => false

/-- How many times each remote operation has been invoked so far; the
oracle's answers are indexed by these counters. -/
structure CallCounts where
  nDescribeAsg : Nat
  nDescribeLtVersion : Nat
  nCreateLtVersion : Nat
  nUpdateAsg : Nat
  nStartRefresh : Nat
  nDescribeRefresh : Nat
  nListInstances : Nat
  nTerminateInstance : Nat
deriving DecidableEq, Repr

def CallCounts.zero : CallCounts := ⟨0, 0, 0, 0, 0, 0, 0, 0⟩

/-- The cloud control plane as a deterministic oracle: the answer to the
`k`-th invocation of each operation (with the given arguments). -/
structure CloudEnv where
  describeAsg : Nat → String → Except AwsError AsgDetails
  describeLtVersion : Nat → String → String → Except AwsError String
  createLtVersion : Nat → String → String → String → Except AwsError Int
  updateAsg : Nat → String → Int → Int → Int → Option LaunchTemplateRef →
      Except AwsError Unit
  startRefresh : Nat → String → InstanceRefreshConfig → Except AwsError String
  describeRefresh : Nat → String → String → Except AwsError String
  listInstances : Nat → Except AwsError (List InstanceRecord)
  terminateInstance : Nat → String → Except AwsError Unit

instance {ε α : Type} [DecidableEq ε] [DecidableEq α] : DecidableEq (Except ε α)
  | Except.error e1, Except.error e2 =>
    decidable_of_iff (e1 = e2) ⟨fun h => h ▸ rfl, fun h => Except.error.inj h⟩
  | Except.error _, Except.ok _ => isFalse (fun h => Except.noConfusion h)
  | Except.ok _, Except.error _ => isFalse (fun h => Except.noConfusion h)
  | Except.ok a1, Except.ok a2 =>
    decidable_of_iff (a1 = a2) ⟨fun h => h ▸ rfl, fun h => Except.ok.inj h⟩

/-- Outcome of one attempt of a (possibly composite) operation: its Python
result or exception, the updated call counters, and the events it produced. -/
structure CallResult (σ α : Type) where
  result : Except AwsError α
  state : σ
  trace : List RunEvent
deriving DecidableEq, Repr

/-- Outcome of a retry-wrapped operation: additionally the number of
attempts made and the waits slept between consecutive attempts. -/
structure RetryResult (σ α : Type) where
  result : Except AwsError α
  state : σ
  trace : List RunEvent
  attempts : Nat
  waits : List Nat
deriving DecidableEq, Repr

/-- `wait_exponential(multiplier=1, min=2, max=10)` evaluated after the
given (1-based) failed attempt: `multiplier * 2 ^ (attempt - 1)` clipped
to `[min, max]`. -/
def waitExponential (attempt : Nat) : Nat :=
  max 2 (min (2 ^ (attempt - 1)) 10)

/-- The attempt loop of tenacity's decorator: `attempt` is the 1-based
number of the current attempt, `remaining` the number of retries still
allowed by `stop_after_attempt`.  A retryable error with no retries left is
raised as `RetryError` wrapping the last attempt's error; a non-retryable
error is raised as-is after a single attempt. -/
def retryGo {σ α : Type} (body : σ → Option (CallResult σ α)) :
    Nat → Nat → σ → Option (RetryResult σ α)
  | _, 0, s =>
    match body s with
    | none => none
    | some r =>
      match r.result with
      | .ok a => some ⟨.ok a, r.state, r.trace, 1, []⟩
      | .error e =>
        if e.isRetryable then some ⟨.error (.retryErr e), r.state, r.trace, 1, []⟩
        else some ⟨.error e, r.state, r.trace, 1, []⟩
  | attempt, remaining + 1, s =>
    match body s with
    | none => none
    | some r =>
      match r.result with
      | .ok a => some ⟨.ok a, r.state, r.trace, 1, []⟩
      | .error e =>
        if e.isRetryable then
          match retryGo body (attempt + 1) remaining r.state with
          | none => none
          | some r2 =>
            some ⟨r2.result, r2.state, r.trace ++ r2.trace, r2.attempts + 1,
              waitExponential attempt :: r2.waits⟩
        else some ⟨.error e, r.state, r.trace, 1, []⟩

/-- `@retry(stop=stop_after_attempt(3), wait=wait_exponential(multiplier=1,
min=2, max=10), retry=retry_if_exception_type(ClientError))`: first attempt
numbered 1, at most 2 further attempts. -/
def tenacityRetry {σ α : Type} (body : σ → Option (CallResult σ α)) (s : σ) :
    Option (RetryResult σ α) :=
  retryGo body 1 2 s

/-- The decorator applied to a single remote call that returns nothing of
interest: the call's outcome on the `k`-th attempt is `f k`. -/
def singleCallBody (f : Nat → Except AwsError Unit) (s : Nat) :
    Option (CallResult Nat Unit) :=
  some ⟨f s, s + 1, []⟩

/-- The retry policy around one remote call, starting at attempt 1. -/
def retryPolicy (f : Nat → Except AwsError Unit) : Option (RetryResult Nat Unit) :=
  tenacityRetry (singleCallBody f) 1


/-- Trace of the `except ClientError as e: logging.error(...); raise` blocks:
only a `ClientError` is caught and logged before being re-raised. -/
def clientErrorLog (e : AwsError) (msg : String) : List RunEvent :=
  if e.isRetryable then [RunEvent.logError msg] else []

/-- One attempt of `AWSHelper.get_current_asg_details`. -/
def get_current_asg_details_attempt (env : CloudEnv) (asg_name : String)
    (c : CallCounts) : Option (CallResult CallCounts AsgDetails) :=
  let ev0 := RunEvent.logInfo "Retrieving details for Auto Scaling Group"
  let callEv := RunEvent.call (AwsCall.describeAsg asg_name)
  let c1 := { c with nDescribeAsg := c.nDescribeAsg + 1 }
  match env.describeAsg c.nDescribeAsg asg_name with
  | .ok d => some ⟨.ok d, c1, [ev0, callEv]⟩
  | .error e =>
    some ⟨.error e, c1,
      [ev0, callEv] ++ clientErrorLog e "ClientError retrieving ASG details"⟩

/-- `AWSHelper.get_current_asg_details` with its retry decorator. -/
def get_current_asg_details (env : CloudEnv) (asg_name : String)
    (c : CallCounts) : Option (RetryResult CallCounts AsgDetails) :=
  tenacityRetry (get_current_asg_details_attempt env asg_name) c

/-- One attempt of `AWSHelper.get_current_ami_id`. -/
def get_current_ami_id_attempt (env : CloudEnv)
    (launch_template_id launch_template_version : String)
    (c : CallCounts) : Option (CallResult CallCounts String) :=
  let ev0 := RunEvent.logInfo "Retrieving current AMI ID from launch template"
  let callEv := RunEvent.call
    (AwsCall.describeLtVersion launch_template_id launch_template_version)
  let c1 := { c with nDescribeLtVersion := c.nDescribeLtVersion + 1 }
  match env.describeLtVersion c.nDescribeLtVersion launch_template_id
      launch_template_version with
  | .ok ami => some ⟨.ok ami, c1, [ev0, callEv]⟩
  | .error e =>
    some ⟨.error e, c1,
      [ev0, callEv] ++ clientErrorLog e "ClientError retrieving AMI ID"⟩

/-- `AWSHelper.get_current_ami_id` with its retry decorator. -/
def get_current_ami_id (env : CloudEnv)
    (launch_template_id launch_template_version : String)
    (c : CallCounts) : Option (RetryResult CallCounts String) :=
  tenacityRetry
    (get_current_ami_id_attempt env launch_template_id launch_template_version) c

/-- One attempt of `AWSHelper.update_auto_scaling_group`: resolve the
current image id (via the retry-wrapped `get_current_ami_id`), compare the
four fields, and if an update is needed optionally publish a new launch
template version and issue the single `update_auto_scaling_group` call. -/
def update_auto_scaling_group_attempt (env : CloudEnv)
    (asg_details : AsgDetails) (new_ami_id : String)
    (desired_capacity min_size max_size : Int)
    (c : CallCounts) : Option (CallResult CallCounts VersionResult) :=
  let ev0 := RunEvent.logInfo
    "Checking if Auto Scaling Group needs to be updated with new AMI or capacity settings"
  let ltId := asg_details.launchTemplate.launchTemplateId
  let ltVer := asg_details.launchTemplate.version
  match get_current_ami_id env ltId ltVer c with
  | none => none
  | some g =>
    match g.result with
    | .error e =>
      some ⟨.error e, g.state,
        ev0 :: g.trace ++ clientErrorLog e "ClientError updating Auto Scaling Group"⟩
    | .ok current_ami_id =>
      if current_ami_id = new_ami_id ∧
          asg_details.desiredCapacity = desired_capacity ∧
          asg_details.minSize = min_size ∧ asg_details.maxSize = max_size then
        some ⟨.ok VersionResult.noUpdate, g.state,
          ev0 :: g.trace ++
            [RunEvent.logInfo
              "AMI ID, desired capacity, min size, and max size have not changed, no update required"]⟩
      else
        let ev1 := RunEvent.logInfo "Updating Auto Scaling Group with new settings"
        if current_ami_id ≠ new_ami_id then
          let ev2 := RunEvent.logInfo
            "AMI ID has changed, creating new version of the launch template"
          let createEv := RunEvent.call
            (AwsCall.createLtVersion ltId ltVer new_ami_id)
          let c2 := { g.state with nCreateLtVersion := g.state.nCreateLtVersion + 1 }
          match env.createLtVersion g.state.nCreateLtVersion ltId ltVer new_ami_id with
          | .error e =>
            some ⟨.error e, c2,
              ev0 :: g.trace ++ [ev1, ev2, createEv] ++
                clientErrorLog e "ClientError updating Auto Scaling Group"⟩
          | .ok new_version =>
            let ltRef : Option LaunchTemplateRef := some ⟨ltId, toString new_version⟩
            let updEv := RunEvent.call
              (AwsCall.updateAsg asg_details.autoScalingGroupName desired_capacity
                min_size max_size ltRef)
            let c3 := { c2 with nUpdateAsg := c2.nUpdateAsg + 1 }
            match env.updateAsg c2.nUpdateAsg asg_details.autoScalingGroupName
                desired_capacity min_size max_size ltRef with
            | .error e =>
              some ⟨.error e, c3,
                ev0 :: g.trace ++ [ev1, ev2, createEv, updEv] ++
                  clientErrorLog e "ClientError updating Auto Scaling Group"⟩
            | .ok _ =>
              some ⟨.ok (VersionResult.newVersion new_version), c3,
                ev0 :: g.trace ++ [ev1, ev2, createEv, updEv]⟩
        else
          let updEv := RunEvent.call
            (AwsCall.updateAsg asg_details.autoScalingGroupName desired_capacity
              min_size max_size none)
          let c3 := { g.state with nUpdateAsg := g.state.nUpdateAsg + 1 }
          match env.updateAsg g.state.nUpdateAsg asg_details.autoScalingGroupName
              desired_capacity min_size max_size none with
          | .error e =>
            some ⟨.error e, c3,
              ev0 :: g.trace ++ [ev1, updEv] ++
                clientErrorLog e "ClientError updating Auto Scaling Group"⟩
          | .ok _ =>
            some ⟨.ok (VersionResult.existingVersion ltVer), c3,
              ev0 :: g.trace ++ [ev1, updEv]⟩

/-- `AWSHelper.update_auto_scaling_group` with its retry decorator (which
wraps the whole composite method). -/
def update_auto_scaling_group (env : CloudEnv) (asg_details : AsgDetails)
    (new_ami_id : String) (desired_capacity min_size max_size : Int)
    (c : CallCounts) : Option (RetryResult CallCounts VersionResult) :=
  tenacityRetry
    (update_auto_scaling_group_attempt env asg_details new_ami_id
      desired_capacity min_size max_size) c

/-- One attempt of `AWSHelper.start_instance_refresh`. -/
def start_instance_refresh_attempt (env : CloudEnv) (asg_name : String)
    (instance_refresh_config : InstanceRefreshConfig)
    (c : CallCounts) : Option (CallResult CallCounts String) :=
  let ev0 := RunEvent.logInfo "Starting instance refresh for ASG"
  let callEv := RunEvent.call (AwsCall.startRefresh asg_name instance_refresh_config)
  let c1 := { c with nStartRefresh := c.nStartRefresh + 1 }
  match env.startRefresh c.nStartRefresh asg_name instance_refresh_config with
  | .ok rid => some ⟨.ok rid, c1, [ev0, callEv]⟩
  | .error e =>
    some ⟨.error e, c1,
      [ev0, callEv] ++ clientErrorLog e "ClientError starting instance refresh"⟩

/-- `AWSHelper.start_instance_refresh` with its retry decorator. -/
def start_instance_refresh (env : CloudEnv) (asg_name : String)
    (instance_refresh_config : InstanceRefreshConfig)
    (c : CallCounts) : Option (RetryResult CallCounts String) :=
  tenacityRetry
    (start_instance_refresh_attempt env asg_name instance_refresh_config) c

/-- The terminal statuses of `wait_for_instance_refresh`:
`status in ['Successful', 'Failed', 'Cancelled']`. -/
def isTerminalStatus (s : String) : Bool :=
  s == "Successful" || s == "Failed" || s == "Cancelled"

/-- The `while True` polling loop of `AWSHelper.wait_for_instance_refresh`:
query the refresh status, exit at the first terminal status (the Python
function then returns `None` — the value channel is typed `Option String`
so that a hypothetical status return value would be expressible), otherwise
`time.sleep(10)` and re-query.  Fuel bounds the number of iterations the
model can unfold; `none` means the fuel was insufficient. -/
def wait_for_instance_refresh_loop (env : CloudEnv)
    (asg_name instance_refresh_id : String) :
    Nat → CallCounts → Option (CallResult CallCounts (Option String))
  | 0, _ => none
  | fuel + 1, c =>
    let callEv := RunEvent.call (AwsCall.describeRefresh asg_name instance_refresh_id)
    let c1 := { c with nDescribeRefresh := c.nDescribeRefresh + 1 }
    match env.describeRefresh c.nDescribeRefresh asg_name instance_refresh_id with
    | .error e =>
      some ⟨.error e, c1,
        [callEv] ++ clientErrorLog e "ClientError waiting for instance refresh"⟩
    | .ok status =>
      if isTerminalStatus status then
        some ⟨.ok none, c1, [callEv, RunEvent.observedStatus status]⟩
      else
        match wait_for_instance_refresh_loop env asg_name instance_refresh_id fuel c1 with
        | none => none
        | some r =>
          some ⟨r.result, r.state,
            callEv :: RunEvent.logInfo "Instance refresh in progress..." ::
              RunEvent.sleep 10 :: r.trace⟩

/-- One attempt of `AWSHelper.wait_for_instance_refresh` (entry log then
the polling loop). -/
def wait_for_instance_refresh_attempt (env : CloudEnv)
    (asg_name instance_refresh_id : String) (fuel : Nat)
    (c : CallCounts) : Option (CallResult CallCounts (Option String)) :=
  match wait_for_instance_refresh_loop env asg_name instance_refresh_id fuel c with
  | none => none
  | some r =>
    some ⟨r.result, r.state,
      RunEvent.logInfo "Waiting for instance refresh to complete" :: r.trace⟩

/-- `AWSHelper.wait_for_instance_refresh` with its retry decorator (which
wraps the whole polling loop). -/
def wait_for_instance_refresh (env : CloudEnv)
    (asg_name instance_refresh_id : String) (fuel : Nat)
    (c : CallCounts) : Option (RetryResult CallCounts (Option String)) :=
  tenacityRetry
    (wait_for_instance_refresh_attempt env asg_name instance_refresh_id fuel) c

/-- The stale-instance filter of `verify_old_instances_termination`:
instances of the group whose lifecycle state is not `InService`. -/
def staleOf (asg_name : String) (instances : List InstanceRecord) :
    List InstanceRecord :=
  instances.filter fun i =>
    i.autoScalingGroupName == asg_name && i.lifecycleState != "InService"

/-- The `for instance in old_instances: terminate_instances(...)` loop;
stops at the first failing terminate call (the exception propagates). -/
def terminate_old_instances (env : CloudEnv) :
    List InstanceRecord → CallCounts → CallResult CallCounts Unit
  | [], c => ⟨.ok (), c, []⟩
  | inst :: rest, c =>
    let callEv := RunEvent.call (AwsCall.terminateInstance inst.instanceId)
    let c1 := { c with nTerminateInstance := c.nTerminateInstance + 1 }
    match env.terminateInstance c.nTerminateInstance inst.instanceId with
    | .error e => ⟨.error e, c1, [callEv]⟩
    | .ok _ =>
      let r := terminate_old_instances env rest c1
      ⟨r.result, r.state, callEv :: r.trace⟩

/-- The `while True` loop of `AWSHelper.verify_old_instances_termination`:
list the instances, filter the stale ones; exit if none, otherwise
terminate each of them, `time.sleep(30)` and re-list. -/
def verify_old_instances_termination_loop (env : CloudEnv) (asg_name : String) :
    Nat → CallCounts → Option (CallResult CallCounts Unit)
  | 0, _ => none
  | fuel + 1, c =>
    let callEv := RunEvent.call AwsCall.listInstances
    let c1 := { c with nListInstances := c.nListInstances + 1 }
    match env.listInstances c.nListInstances with
    | .error e =>
      some ⟨.error e, c1,
        [callEv] ++ clientErrorLog e "ClientError verifying old instances termination"⟩
    | .ok instances =>
      let obsEv := RunEvent.observedInstances instances
      let old_instances := staleOf asg_name instances
      if old_instances.isEmpty then
        some ⟨.ok (), c1,
          [callEv, obsEv, RunEvent.logInfo "Old instances have been terminated"]⟩
      else
        let t := terminate_old_instances env old_instances c1
        match t.result with
        | .error e =>
          some ⟨.error e, t.state,
            callEv :: obsEv ::
              RunEvent.logInfo "Waiting for old instances to terminate..." ::
              t.trace ++
              clientErrorLog e "ClientError verifying old instances termination"⟩
        | .ok _ =>
          match verify_old_instances_termination_loop env asg_name fuel t.state with
          | none => none
          | some r =>
            some ⟨r.result, r.state,
              callEv :: obsEv ::
                RunEvent.logInfo "Waiting for old instances to terminate..." ::
                t.trace ++ RunEvent.sleep 30 :: r.trace⟩

/-- One attempt of `AWSHelper.verify_old_instances_termination`. -/
def verify_old_instances_termination_attempt (env : CloudEnv)
    (asg_name : String) (fuel : Nat)
    (c : CallCounts) : Option (CallResult CallCounts Unit) :=
  match verify_old_instances_termination_loop env asg_name fuel c with
  | none => none
  | some r =>
    some ⟨r.result, r.state,
      RunEvent.logInfo "Verifying that old instances are terminated" :: r.trace⟩

/-- `AWSHelper.verify_old_instances_termination` with its retry decorator
(which wraps the whole reaper loop). -/
def verify_old_instances_termination (env : CloudEnv) (asg_name : String)
    (fuel : Nat) (c : CallCounts) : Option (RetryResult CallCounts Unit) :=
  tenacityRetry (verify_old_instances_termination_attempt env asg_name fuel) c

/-- The final log line of `Deployment.run`. -/
def successMarker : RunEvent :=
  RunEvent.logInfo "Deployment process completed successfully"

/-- Result of `Deployment.run`: the function completed normally (its final
success line was logged), returned early after catching an exception, or
let an exception escape (which aborts the process with a traceback). -/
inductive RunOutcome : Type where
  | completed
  | returnedEarly
  | raised (e : AwsError)
deriving DecidableEq, Repr

/-- `Deployment.run`: the orchestration sequence.  Stage 1 catches only
`ValueError`; any other exception escapes.  Stages 2-5 sit in one `try`
whose `except Exception` logs and returns.  The no-update branch skips the
refresh and the reaper but still reaches the final success log line. -/
def Deployment.run (env : CloudEnv) (cfg : DeployConfig) (fuel : Nat) :
    Option (RunOutcome × List RunEvent) :=
  let t0 := [RunEvent.logInfo "Starting deployment process",
    RunEvent.logInfo "Initializing AWS SDK"]
  match get_current_asg_details env cfg.autoScalingGroup CallCounts.zero with
  | none => none
  | some g1 =>
    match g1.result with
    | .error (AwsError.valueError m) =>
      some (RunOutcome.returnedEarly,
        t0 ++ g1.trace ++ [RunEvent.logError ("Error retrieving ASG details: " ++ m)])
    | .error e => some (RunOutcome.raised e, t0 ++ g1.trace)
    | .ok asg_details =>
      let t1 := t0 ++ g1.trace ++ [RunEvent.logInfo "ASG Details"]
      match update_auto_scaling_group env asg_details cfg.amiId
          cfg.desiredCapacity cfg.minSize cfg.maxSize g1.state with
      | none => none
      | some g2 =>
        match g2.result with
        | .error _ =>
          some (RunOutcome.returnedEarly,
            t1 ++ g2.trace ++ [RunEvent.logError "Error updating ASG with new AMI"])
        | .ok VersionResult.noUpdate =>
          some (RunOutcome.completed,
            t1 ++ g2.trace ++
              [RunEvent.logInfo
                "No update required, AMI ID, desired capacity, min size, and max size have not changed",
               successMarker])
        | .ok _ =>
          let t2 := t1 ++ g2.trace ++
            [RunEvent.logInfo "ASG updated to use new launch template version"]
          match start_instance_refresh env cfg.autoScalingGroup
              cfg.instanceRefresh g2.state with
          | none => none
          | some g3 =>
            match g3.result with
            | .error _ =>
              some (RunOutcome.returnedEarly,
                t2 ++ g3.trace ++ [RunEvent.logError "Error updating ASG with new AMI"])
            | .ok refresh_id =>
              let t3 := t2 ++ g3.trace ++
                [RunEvent.logInfo "Started instance refresh"]
              match wait_for_instance_refresh env cfg.autoScalingGroup
                  refresh_id fuel g3.state with
              | none => none
              | some g4 =>
                match g4.result with
                | .error _ =>
                  some (RunOutcome.returnedEarly,
                    t3 ++ g4.trace ++
                      [RunEvent.logError "Error updating ASG with new AMI"])
                | .ok _ =>
                  let t4 := t3 ++ g4.trace ++
                    [RunEvent.logInfo "Instance refresh completed successfully"]
                  match verify_old_instances_termination env
                      cfg.autoScalingGroup fuel g4.state with
                  | none => none
                  | some g5 =>
                    match g5.result with
                    | .error _ =>
                      some (RunOutcome.returnedEarly,
                        t4 ++ g5.trace ++
                          [RunEvent.logError "Error updating ASG with new AMI"])
                    | .ok _ =>
                      some (RunOutcome.completed,
                        t4 ++ g5.trace ++
                          [RunEvent.logInfo "Old instances have been terminated",
                           successMarker])

/-! ### Generic lemmas about the retry combinator -/

theorem tenacityRetry_ok {σ α : Type} (body : σ → Option (CallResult σ α))
    (s s' : σ) (a : α) (t : List RunEvent)
    (h : body s = some ⟨Except.ok a, s', t⟩) :
    tenacityRetry body s = some ⟨Except.ok a, s', t, 1, []⟩ := by
  simp [tenacityRetry, retryGo, h]

theorem tenacityRetry_fatal {σ α : Type} (body : σ → Option (CallResult σ α))
    (s s' : σ) (e : AwsError) (t : List RunEvent)
    (h : body s = some ⟨Except.error e, s', t⟩) (he : e.isRetryable = false) :
    tenacityRetry body s = some ⟨Except.error e, s', t, 1, []⟩ := by
  simp [tenacityRetry, retryGo, h, he]

theorem tenacityRetry_second_ok {σ α : Type} (body : σ → Option (CallResult σ α))
    (s s1 s2 : σ) (e : AwsError) (a : α) (t1 t2 : List RunEvent)
    (h1 : body s = some ⟨Except.error e, s1, t1⟩) (he : e.isRetryable = true)
    (h2 : body s1 = some ⟨Except.ok a, s2, t2⟩) :
    tenacityRetry body s = some ⟨Except.ok a, s2, t1 ++ t2, 2, [2]⟩ := by
  simp [tenacityRetry, retryGo, h1, he, h2, waitExponential]

theorem tenacityRetry_exhaust {σ α : Type} (body : σ → Option (CallResult σ α))
    (s s1 s2 s3 : σ) (e1 e2 e3 : AwsError) (t1 t2 t3 : List RunEvent)
    (h1 : body s = some ⟨Except.error e1, s1, t1⟩) (he1 : e1.isRetryable = true)
    (h2 : body s1 = some ⟨Except.error e2, s2, t2⟩) (he2 : e2.isRetryable = true)
    (h3 : body s2 = some ⟨Except.error e3, s3, t3⟩) (he3 : e3.isRetryable = true) :
    tenacityRetry body s =
      some ⟨Except.error (AwsError.retryErr e3), s3, t1 ++ (t2 ++ t3), 3, [2, 2]⟩ := by
  simp [tenacityRetry, retryGo, h1, he1, h2, he2, h3, he3, waitExponential]

/-- Every event of a retry-wrapped call's trace comes from one of the
attempts' traces. -/
theorem retryGo_trace_all {σ α : Type} (body : σ → Option (CallResult σ α))
    (p : RunEvent → Prop)
    (hb : ∀ s r, body s = some r → ∀ ev ∈ r.trace, p ev) :
    ∀ (f a : Nat) (s : σ) (rr : RetryResult σ α),
      retryGo body a f s = some rr → ∀ ev ∈ rr.trace, p ev := by
  intro f
  induction f with
  | zero =>
    intro a s rr h ev hev
    cases hb' : body s with
    | none => simp [retryGo, hb'] at h
    | some r =>
      cases hr : r.result with
      | ok x =>
        simp only [retryGo, hb', hr, Option.some.injEq] at h
        subst h
        exact hb s r hb' ev hev
      | error e =>
        simp only [retryGo, hb', hr] at h
        split at h <;>
          (simp only [Option.some.injEq] at h; subst h; exact hb s r hb' ev hev)
  | succ f ih =>
    intro a s rr h ev hev
    cases hb' : body s with
    | none => simp [retryGo, hb'] at h
    | some r =>
      cases hr : r.result with
      | ok x =>
        simp only [retryGo, hb', hr, Option.some.injEq] at h
        subst h
        exact hb s r hb' ev hev
      | error e =>
        simp only [retryGo, hb', hr] at h
        by_cases hre : e.isRetryable = true
        · rw [if_pos hre] at h
          cases hrec : retryGo body (a + 1) f r.state with
          | none => simp [hrec] at h
          | some r2 =>
            simp only [hrec, Option.some.injEq] at h
            subst h
            simp only [List.mem_append] at hev
            rcases hev with hev | hev
            · exact hb s r hb' ev hev
            · exact ih (a + 1) r.state r2 hrec ev hev
        · rw [if_neg hre] at h
          simp only [Option.some.injEq] at h
          subst h
          exact hb s r hb' ev hev

/-- If every attempt's trace contains `ev`, so does the wrapped call's. -/
theorem retryGo_trace_mem {σ α : Type} (body : σ → Option (CallResult σ α))
    (ev : RunEvent)
    (hb : ∀ s r, body s = some r → ev ∈ r.trace) :
    ∀ (f a : Nat) (s : σ) (rr : RetryResult σ α),
      retryGo body a f s = some rr → ev ∈ rr.trace := by
  intro f
  induction f with
  | zero =>
    intro a s rr h
    cases hb' : body s with
    | none => simp [retryGo, hb'] at h
    | some r =>
      cases hr : r.result with
      | ok x =>
        simp only [retryGo, hb', hr, Option.some.injEq] at h
        subst h
        exact hb s r hb'
      | error e =>
        simp only [retryGo, hb', hr] at h
        split at h <;>
          (simp only [Option.some.injEq] at h; subst h; exact hb s r hb')
  | succ f ih =>
    intro a s rr h
    cases hb' : body s with
    | none => simp [retryGo, hb'] at h
    | some r =>
      cases hr : r.result with
      | ok x =>
        simp only [retryGo, hb', hr, Option.some.injEq] at h
        subst h
        exact hb s r hb'
      | error e =>
        simp only [retryGo, hb', hr] at h
        by_cases hre : e.isRetryable = true
        · rw [if_pos hre] at h
          cases hrec : retryGo body (a + 1) f r.state with
          | none => simp [hrec] at h
          | some r2 =>
            simp only [hrec, Option.some.injEq] at h
            subst h
            simp only [List.mem_append]
            exact Or.inl (hb s r hb')
        · rw [if_neg hre] at h
          simp only [Option.some.injEq] at h
          subst h
          exact hb s r hb'

/-- A successful retry-wrapped call had a successful attempt, whose trace
is contained in the overall trace. -/
theorem retryGo_ok_attempt {σ α : Type} (body : σ → Option (CallResult σ α)) :
    ∀ (f a : Nat) (s : σ) (rr : RetryResult σ α) (x : α),
      retryGo body a f s = some rr → rr.result = Except.ok x →
      ∃ s' r', body s' = some r' ∧ r'.result = Except.ok x ∧
        ∀ ev ∈ r'.trace, ev ∈ rr.trace := by
  intro f
  induction f with
  | zero =>
    intro a s rr x h hok
    cases hb' : body s with
    | none => simp [retryGo, hb'] at h
    | some r =>
      cases hr : r.result with
      | ok y =>
        simp only [retryGo, hb', hr, Option.some.injEq] at h
        subst h
        simp only [Except.ok.injEq] at hok
        subst hok
        exact ⟨s, r, hb', hr, fun ev hev => hev⟩
      | error e =>
        simp only [retryGo, hb', hr] at h
        split at h <;>
          (simp only [Option.some.injEq] at h; subst h; exact absurd hok (by simp))
  | succ f ih =>
    intro a s rr x h hok
    cases hb' : body s with
    | none => simp [retryGo, hb'] at h
    | some r =>
      cases hr : r.result with
      | ok y =>
        simp only [retryGo, hb', hr, Option.some.injEq] at h
        subst h
        simp only [Except.ok.injEq] at hok
        subst hok
        exact ⟨s, r, hb', hr, fun ev hev => hev⟩
      | error e =>
        simp only [retryGo, hb', hr] at h
        by_cases hre : e.isRetryable = true
        · rw [if_pos hre] at h
          cases hrec : retryGo body (a + 1) f r.state with
          | none => simp [hrec] at h
          | some r2 =>
            simp only [hrec, Option.some.injEq] at h
            subst h
            simp only at hok
            obtain ⟨s2, r2x, hb2, hr2, hsub⟩ := ih (a + 1) r.state r2 x hrec hok
            exact ⟨s2, r2x, hb2, hr2, fun ev hev => by
              simp only [List.mem_append]
              exact Or.inr (hsub ev hev)⟩
        · rw [if_neg hre] at h
          simp only [Option.some.injEq] at h
          subst h
          exact absurd hok (by simp)

/-! ### The success marker is only ever logged by `Deployment.run` itself -/

@[simp] theorem successMarker_ne_call (c : AwsCall) :
    successMarker ≠ RunEvent.call c := by simp [successMarker]

@[simp] theorem successMarker_ne_logError (m : String) :
    successMarker ≠ RunEvent.logError m := by simp [successMarker]

@[simp] theorem successMarker_ne_observedStatus (m : String) :
    successMarker ≠ RunEvent.observedStatus m := by simp [successMarker]

@[simp] theorem successMarker_ne_observedInstances (l : List InstanceRecord) :
    successMarker ≠ RunEvent.observedInstances l := by simp [successMarker]

@[simp] theorem successMarker_ne_sleep (n : Nat) :
    successMarker ≠ RunEvent.sleep n := by simp [successMarker]

@[simp] theorem successMarker_eq_logInfo (m : String) :
    successMarker = RunEvent.logInfo m ↔
      "Deployment process completed successfully" = m := by
  simp [successMarker]

@[simp] theorem successMarker_not_in_clientErrorLog (e : AwsError) (m : String) :
    successMarker ∉ clientErrorLog e m := by
  unfold clientErrorLog
  split <;> simp

theorem notin_to_all {t : List RunEvent} (h : successMarker ∉ t) :
    ∀ ev ∈ t, ev ≠ successMarker := fun _ hev heq => h (heq ▸ hev)

theorem tenacityRetry_noSuccess {σ α : Type} (body : σ → Option (CallResult σ α))
    (hb : ∀ s r, body s = some r → successMarker ∉ r.trace)
    (s : σ) (rr : RetryResult σ α) (h : tenacityRetry body s = some rr) :
    successMarker ∉ rr.trace :=
  fun hmem => retryGo_trace_all body (fun ev => ev ≠ successMarker)
    (fun s r hr => notin_to_all (hb s r hr)) 2 1 s rr h successMarker hmem rfl

theorem get_current_asg_details_attempt_noSuccess (env : CloudEnv)
    (name : String) (c : CallCounts) (r : CallResult CallCounts AsgDetails)
    (h : get_current_asg_details_attempt env name c = some r) :
    successMarker ∉ r.trace := by
  unfold get_current_asg_details_attempt at h
  split at h <;> (simp only [Option.some.injEq] at h; subst h; simp)

theorem get_current_asg_details_noSuccess (env : CloudEnv) (name : String)
    (c : CallCounts) (rr : RetryResult CallCounts AsgDetails)
    (h : get_current_asg_details env name c = some rr) :
    successMarker ∉ rr.trace :=
  tenacityRetry_noSuccess _
    (fun s r hr => get_current_asg_details_attempt_noSuccess env name s r hr) c rr h

theorem get_current_ami_id_attempt_noSuccess (env : CloudEnv)
    (ltId v : String) (c : CallCounts) (r : CallResult CallCounts String)
    (h : get_current_ami_id_attempt env ltId v c = some r) :
    successMarker ∉ r.trace := by
  unfold get_current_ami_id_attempt at h
  split at h <;> (simp only [Option.some.injEq] at h; subst h; simp)

theorem get_current_ami_id_noSuccess (env : CloudEnv) (ltId v : String)
    (c : CallCounts) (rr : RetryResult CallCounts String)
    (h : get_current_ami_id env ltId v c = some rr) :
    successMarker ∉ rr.trace :=
  tenacityRetry_noSuccess _
    (fun s r hr => get_current_ami_id_attempt_noSuccess env ltId v s r hr) c rr h

theorem update_auto_scaling_group_attempt_noSuccess (env : CloudEnv)
    (asg : AsgDetails) (ami : String) (d mn mx : Int) (c : CallCounts)
    (r : CallResult CallCounts VersionResult)
    (h : update_auto_scaling_group_attempt env asg ami d mn mx c = some r) :
    successMarker ∉ r.trace := by
  unfold update_auto_scaling_group_attempt at h
  cases hg : get_current_ami_id env asg.launchTemplate.launchTemplateId
      asg.launchTemplate.version c with
  | none => simp [hg] at h
  | some g =>
    have hgn : successMarker ∉ g.trace := get_current_ami_id_noSuccess _ _ _ _ _ hg
    simp only [hg] at h
    cases hr : g.result with
    | error e =>
      simp only [hr, Option.some.injEq] at h
      subst h
      simp [hgn]
    | ok cur =>
      simp only [hr] at h
      split at h
      · simp only [Option.some.injEq] at h
        subst h
        simp [hgn]
      · split at h
        · cases hc : env.createLtVersion g.state.nCreateLtVersion
              asg.launchTemplate.launchTemplateId asg.launchTemplate.version ami with
          | error e =>
            simp only [hc, Option.some.injEq] at h
            subst h
            simp [hgn]
          | ok nv =>
            simp only [hc] at h
            cases hu : env.updateAsg g.state.nUpdateAsg asg.autoScalingGroupName d mn mx
                (some ⟨asg.launchTemplate.launchTemplateId, toString nv⟩) with
            | error e =>
              simp only [hu, Option.some.injEq] at h
              subst h
              simp [hgn]
            | ok u =>
              simp only [hu, Option.some.injEq] at h
              subst h
              simp [hgn]
        · cases hu : env.updateAsg g.state.nUpdateAsg asg.autoScalingGroupName d mn mx
              none with
          | error e =>
            simp only [hu, Option.some.injEq] at h
            subst h
            simp [hgn]
          | ok u =>
            simp only [hu, Option.some.injEq] at h
            subst h
            simp [hgn]

theorem update_auto_scaling_group_noSuccess (env : CloudEnv) (asg : AsgDetails)
    (ami : String) (d mn mx : Int) (c : CallCounts)
    (rr : RetryResult CallCounts VersionResult)
    (h : update_auto_scaling_group env asg ami d mn mx c = some rr) :
    successMarker ∉ rr.trace :=
  tenacityRetry_noSuccess _
    (fun s r hr =>
      update_auto_scaling_group_attempt_noSuccess env asg ami d mn mx s r hr) c rr h

theorem start_instance_refresh_attempt_noSuccess (env : CloudEnv)
    (name : String) (rc : InstanceRefreshConfig) (c : CallCounts)
    (r : CallResult CallCounts String)
    (h : start_instance_refresh_attempt env name rc c = some r) :
    successMarker ∉ r.trace := by
  unfold start_instance_refresh_attempt at h
  split at h <;> (simp only [Option.some.injEq] at h; subst h; simp)

theorem start_instance_refresh_noSuccess (env : CloudEnv) (name : String)
    (rc : InstanceRefreshConfig) (c : CallCounts)
    (rr : RetryResult CallCounts String)
    (h : start_instance_refresh env name rc c = some rr) :
    successMarker ∉ rr.trace :=
  tenacityRetry_noSuccess _
    (fun s r hr => start_instance_refresh_attempt_noSuccess env name rc s r hr) c rr h

theorem wait_for_instance_refresh_loop_noSuccess (env : CloudEnv)
    (name rid : String) :
    ∀ (fuel : Nat) (c : CallCounts) (r : CallResult CallCounts (Option String)),
      wait_for_instance_refresh_loop env name rid fuel c = some r →
      successMarker ∉ r.trace := by
  intro fuel
  induction fuel with
  | zero => intro c r h; simp [wait_for_instance_refresh_loop] at h
  | succ fuel ih =>
    intro c r h
    unfold wait_for_instance_refresh_loop at h
    cases hq : env.describeRefresh c.nDescribeRefresh name rid with
    | error e =>
      simp only [hq, Option.some.injEq] at h
      subst h
      simp
    | ok status =>
      simp only [hq] at h
      split at h
      · simp only [Option.some.injEq] at h
        subst h
        simp
      · cases hrec : wait_for_instance_refresh_loop env name rid fuel
            { c with nDescribeRefresh := c.nDescribeRefresh + 1 } with
        | none => simp [hrec] at h
        | some r2 =>
          simp only [hrec, Option.some.injEq] at h
          subst h
          simp [ih _ _ hrec]

theorem wait_for_instance_refresh_attempt_noSuccess (env : CloudEnv)
    (name rid : String) (fuel : Nat) (c : CallCounts)
    (r : CallResult CallCounts (Option String))
    (h : wait_for_instance_refresh_attempt env name rid fuel c = some r) :
    successMarker ∉ r.trace := by
  unfold wait_for_instance_refresh_attempt at h
  cases hl : wait_for_instance_refresh_loop env name rid fuel c with
  | none => simp [hl] at h
  | some r2 =>
    simp only [hl, Option.some.injEq] at h
    subst h
    simp [wait_for_instance_refresh_loop_noSuccess env name rid fuel c r2 hl]

theorem wait_for_instance_refresh_noSuccess (env : CloudEnv)
    (name rid : String) (fuel : Nat) (c : CallCounts)
    (rr : RetryResult CallCounts (Option String))
    (h : wait_for_instance_refresh env name rid fuel c = some rr) :
    successMarker ∉ rr.trace :=
  tenacityRetry_noSuccess _
    (fun s r hr =>
      wait_for_instance_refresh_attempt_noSuccess env name rid fuel s r hr) c rr h

theorem terminate_old_instances_trace (env : CloudEnv) :
    ∀ (l : List InstanceRecord) (c : CallCounts),
      ∀ ev ∈ (terminate_old_instances env l c).trace,
        ∃ iid, ev = RunEvent.call (AwsCall.terminateInstance iid) := by
  intro l
  induction l with
  | nil => intro c ev hev; simp [terminate_old_instances] at hev
  | cons inst rest ih =>
    intro c ev hev
    unfold terminate_old_instances at hev
    cases ht : env.terminateInstance c.nTerminateInstance inst.instanceId with
    | error e =>
      simp only [ht] at hev
      simp only [List.mem_cons, List.not_mem_nil, or_false] at hev
      exact ⟨inst.instanceId, hev⟩
    | ok u =>
      simp only [ht] at hev
      simp only [List.mem_cons] at hev
      rcases hev with rfl | hev
      · exact ⟨inst.instanceId, rfl⟩
      · exact ih _ ev hev

theorem terminate_old_instances_noSuccess (env : CloudEnv)
    (l : List InstanceRecord) (c : CallCounts) :
    successMarker ∉ (terminate_old_instances env l c).trace := by
  intro hmem
  obtain ⟨iid, heq⟩ := terminate_old_instances_trace env l c successMarker hmem
  exact successMarker_ne_call _ heq

theorem verify_old_instances_termination_loop_noSuccess (env : CloudEnv)
    (name : String) :
    ∀ (fuel : Nat) (c : CallCounts) (r : CallResult CallCounts Unit),
      verify_old_instances_termination_loop env name fuel c = some r →
      successMarker ∉ r.trace := by
  intro fuel
  induction fuel with
  | zero => intro c r h; simp [verify_old_instances_termination_loop] at h
  | succ fuel ih =>
    intro c r h
    unfold verify_old_instances_termination_loop at h
    cases hq : env.listInstances c.nListInstances with
    | error e =>
      simp only [hq, Option.some.injEq] at h
      subst h
      simp
    | ok instances =>
      simp only [hq] at h
      split at h
      · simp only [Option.some.injEq] at h
        subst h
        simp
      · cases ht : (terminate_old_instances env (staleOf name instances)
            { c with nListInstances := c.nListInstances + 1 }).result with
        | error e =>
          simp only [ht, Option.some.injEq] at h
          subst h
          simp [terminate_old_instances_noSuccess]
        | ok u =>
          simp only [ht] at h
          cases hrec : verify_old_instances_termination_loop env name fuel
              (terminate_old_instances env (staleOf name instances)
                { c with nListInstances := c.nListInstances + 1 }).state with
          | none => simp [hrec] at h
          | some r2 =>
            simp only [hrec, Option.some.injEq] at h
            subst h
            simp [terminate_old_instances_noSuccess, ih _ _ hrec]

theorem verify_old_instances_termination_attempt_noSuccess (env : CloudEnv)
    (name : String) (fuel : Nat) (c : CallCounts)
    (r : CallResult CallCounts Unit)
    (h : verify_old_instances_termination_attempt env name fuel c = some r) :
    successMarker ∉ r.trace := by
  unfold verify_old_instances_termination_attempt at h
  cases hl : verify_old_instances_termination_loop env name fuel c with
  | none => simp [hl] at h
  | some r2 =>
    simp only [hl, Option.some.injEq] at h
    subst h
    simp [verify_old_instances_termination_loop_noSuccess env name fuel c r2 hl]

theorem verify_old_instances_termination_noSuccess (env : CloudEnv)
    (name : String) (fuel : Nat) (c : CallCounts)
    (rr : RetryResult CallCounts Unit)
    (h : verify_old_instances_termination env name fuel c = some rr) :
    successMarker ∉ rr.trace :=
  tenacityRetry_noSuccess _
    (fun s r hr =>
      verify_old_instances_termination_attempt_noSuccess env name fuel s r hr) c rr h

/-! ### The reaper only returns success after observing an empty stale set -/

theorem verify_loop_ok_observed (env : CloudEnv) (name : String) :
    ∀ (fuel : Nat) (c : CallCounts) (r : CallResult CallCounts Unit),
      verify_old_instances_termination_loop env name fuel c = some r →
      r.result = Except.ok () →
      ∃ l, RunEvent.observedInstances l ∈ r.trace ∧
        (staleOf name l).isEmpty = true := by
  intro fuel
  induction fuel with
  | zero => intro c r h _; simp [verify_old_instances_termination_loop] at h
  | succ fuel ih =>
    intro c r h hok
    unfold verify_old_instances_termination_loop at h
    cases hq : env.listInstances c.nListInstances with
    | error e =>
      simp only [hq, Option.some.injEq] at h
      subst h
      simp at hok
    | ok instances =>
      simp only [hq] at h
      split at h
      case isTrue hemp =>
        simp only [Option.some.injEq] at h
        subst h
        exact ⟨instances, by simp, hemp⟩
      case isFalse hemp =>
        cases ht : (terminate_old_instances env (staleOf name instances)
            { c with nListInstances := c.nListInstances + 1 }).result with
        | error e =>
          simp only [ht, Option.some.injEq] at h
          subst h
          simp at hok
        | ok u =>
          simp only [ht] at h
          cases hrec : verify_old_instances_termination_loop env name fuel
              (terminate_old_instances env (staleOf name instances)
                { c with nListInstances := c.nListInstances + 1 }).state with
          | none => simp [hrec] at h
          | some r2 =>
            simp only [hrec, Option.some.injEq] at h
            subst h
            obtain ⟨l, hml, hle⟩ := ih _ _ hrec hok
            exact ⟨l, by simp [hml], hle⟩

theorem verify_ok_observed (env : CloudEnv) (name : String) (fuel : Nat)
    (c : CallCounts) (rr : RetryResult CallCounts Unit)
    (h : verify_old_instances_termination env name fuel c = some rr)
    (hok : rr.result = Except.ok ()) :
    ∃ l, RunEvent.observedInstances l ∈ rr.trace ∧
      (staleOf name l).isEmpty = true := by
  obtain ⟨s2, r2, hb, hr, hsub⟩ := retryGo_ok_attempt _ 2 1 c rr () h hok
  unfold verify_old_instances_termination_attempt at hb
  cases hl : verify_old_instances_termination_loop env name fuel s2 with
  | none => simp [hl] at hb
  | some r3 =>
    simp only [hl, Option.some.injEq] at hb
    subst hb
    obtain ⟨l, hml, hle⟩ := verify_loop_ok_observed env name fuel s2 r3 hl hr
    exact ⟨l, hsub _ (by simp [hml]), hle⟩

/-! ### Characterization of `Deployment.run` outcomes -/

theorem run_characterization (env : CloudEnv) (cfg : DeployConfig) (fuel : Nat)
    (out : RunOutcome) (tr : List RunEvent)
    (h : Deployment.run env cfg fuel = some (out, tr)) :
    (successMarker ∈ tr →
      out = RunOutcome.completed ∧
      ∃ tr', tr = tr' ++ [successMarker] ∧
        (RunEvent.logInfo
            "No update required, AMI ID, desired capacity, min size, and max size have not changed"
            ∈ tr' ∨
         ∃ l, RunEvent.observedInstances l ∈ tr' ∧
           (staleOf cfg.autoScalingGroup l).isEmpty = true))
    ∧ (out ≠ RunOutcome.completed →
      successMarker ∉ tr ∧
      ((∃ m, RunEvent.logError m ∈ tr) ∨ ∃ e, out = RunOutcome.raised e)) := by
  unfold Deployment.run at h
  cases h1 : get_current_asg_details env cfg.autoScalingGroup CallCounts.zero with
  | none => simp [h1] at h
  | some g1 =>
    have hn1 := get_current_asg_details_noSuccess _ _ _ _ h1
    simp only [h1] at h
    cases hr1 : g1.result with
    | error e =>
      cases e with
      | valueError m =>
        simp only [hr1, Option.some.injEq, Prod.mk.injEq] at h
        obtain ⟨ho, htr⟩ := h
        subst ho; subst htr
        exact ⟨fun hmem => absurd hmem (by simp [hn1]),
          fun _ => ⟨by simp [hn1],
            Or.inl ⟨"Error retrieving ASG details: " ++ m, by simp⟩⟩⟩
      | clientError m =>
        simp only [hr1, Option.some.injEq, Prod.mk.injEq] at h
        obtain ⟨ho, htr⟩ := h
        subst ho; subst htr
        exact ⟨fun hmem => absurd hmem (by simp [hn1]),
          fun _ => ⟨by simp [hn1], Or.inr ⟨_, rfl⟩⟩⟩
      | otherError m =>
        simp only [hr1, Option.some.injEq, Prod.mk.injEq] at h
        obtain ⟨ho, htr⟩ := h
        subst ho; subst htr
        exact ⟨fun hmem => absurd hmem (by simp [hn1]),
          fun _ => ⟨by simp [hn1], Or.inr ⟨_, rfl⟩⟩⟩
      | retryErr e2 =>
        simp only [hr1, Option.some.injEq, Prod.mk.injEq] at h
        obtain ⟨ho, htr⟩ := h
        subst ho; subst htr
        exact ⟨fun hmem => absurd hmem (by simp [hn1]),
          fun _ => ⟨by simp [hn1], Or.inr ⟨_, rfl⟩⟩⟩
    | ok asg_details =>
      simp only [hr1] at h
      cases h2 : update_auto_scaling_group env asg_details cfg.amiId
          cfg.desiredCapacity cfg.minSize cfg.maxSize g1.state with
      | none => simp [h2] at h
      | some g2 =>
        have hn2 := update_auto_scaling_group_noSuccess _ _ _ _ _ _ _ _ h2
        simp only [h2] at h
        cases hr2 : g2.result with
        | error e =>
          simp only [hr2, Option.some.injEq, Prod.mk.injEq] at h
          obtain ⟨ho, htr⟩ := h
          subst ho; subst htr
          exact ⟨fun hmem => absurd hmem (by simp [hn1, hn2]),
            fun _ => ⟨by simp [hn1, hn2],
              Or.inl ⟨"Error updating ASG with new AMI", by simp⟩⟩⟩
        | ok v =>
          rcases v with _ | n | vtok
          · simp only [hr2, Option.some.injEq, Prod.mk.injEq] at h
            obtain ⟨ho, htr⟩ := h
            subst ho; subst htr
            constructor
            · intro _
              refine ⟨rfl,
                [RunEvent.logInfo "Starting deployment process",
                 RunEvent.logInfo "Initializing AWS SDK"] ++ g1.trace ++
                  [RunEvent.logInfo "ASG Details"] ++ g2.trace ++
                  [RunEvent.logInfo
                    "No update required, AMI ID, desired capacity, min size, and max size have not changed"],
                by simp, Or.inl (by simp)⟩
            · intro hne; exact absurd rfl hne
          all_goals
          · simp only [hr2] at h
            cases h3 : start_instance_refresh env cfg.autoScalingGroup
                cfg.instanceRefresh g2.state with
            | none => simp [h3] at h
            | some g3 =>
              have hn3 := start_instance_refresh_noSuccess _ _ _ _ _ h3
              simp only [h3] at h
              cases hr3 : g3.result with
              | error e =>
                simp only [hr3, Option.some.injEq, Prod.mk.injEq] at h
                obtain ⟨ho, htr⟩ := h
                subst ho; subst htr
                exact ⟨fun hmem => absurd hmem (by simp [hn1, hn2, hn3]),
                  fun _ => ⟨by simp [hn1, hn2, hn3],
                    Or.inl ⟨"Error updating ASG with new AMI", by simp⟩⟩⟩
              | ok rid =>
                simp only [hr3] at h
                cases h4 : wait_for_instance_refresh env cfg.autoScalingGroup
                    rid fuel g3.state with
                | none => simp [h4] at h
                | some g4 =>
                  have hn4 := wait_for_instance_refresh_noSuccess _ _ _ _ _ _ h4
                  simp only [h4] at h
                  cases hr4 : g4.result with
                  | error e =>
                    simp only [hr4, Option.some.injEq, Prod.mk.injEq] at h
                    obtain ⟨ho, htr⟩ := h
                    subst ho; subst htr
                    exact ⟨fun hmem =>
                        absurd hmem (by simp [hn1, hn2, hn3, hn4]),
                      fun _ => ⟨by simp [hn1, hn2, hn3, hn4],
                        Or.inl ⟨"Error updating ASG with new AMI", by simp⟩⟩⟩
                  | ok w =>
                    simp only [hr4] at h
                    cases h5 : verify_old_instances_termination env
                        cfg.autoScalingGroup fuel g4.state with
                    | none => simp [h5] at h
                    | some g5 =>
                      have hn5 :=
                        verify_old_instances_termination_noSuccess _ _ _ _ _ h5
                      simp only [h5] at h
                      cases hr5 : g5.result with
                      | error e =>
                        simp only [hr5, Option.some.injEq, Prod.mk.injEq] at h
                        obtain ⟨ho, htr⟩ := h
                        subst ho; subst htr
                        exact ⟨fun hmem =>
                            absurd hmem (by simp [hn1, hn2, hn3, hn4, hn5]),
                          fun _ => ⟨by simp [hn1, hn2, hn3, hn4, hn5],
                            Or.inl ⟨"Error updating ASG with new AMI", by simp⟩⟩⟩
                      | ok u =>
                        cases u
                        simp only [hr5, Option.some.injEq, Prod.mk.injEq] at h
                        obtain ⟨ho, htr⟩ := h
                        subst ho; subst htr
                        constructor
                        · intro _
                          obtain ⟨l, hml, hle⟩ := verify_ok_observed env
                            cfg.autoScalingGroup fuel g4.state g5 h5 hr5
                          refine ⟨rfl,
                            [RunEvent.logInfo "Starting deployment process",
                             RunEvent.logInfo "Initializing AWS SDK"] ++ g1.trace ++
                              [RunEvent.logInfo "ASG Details"] ++ g2.trace ++
                              [RunEvent.logInfo "ASG updated to use new launch template version"] ++
                              g3.trace ++
                              [RunEvent.logInfo "Started instance refresh"] ++
                              g4.trace ++
                              [RunEvent.logInfo "Instance refresh completed successfully"] ++
                              g5.trace ++
                              [RunEvent.logInfo "Old instances have been terminated"],
                            by simp, Or.inr ⟨l, by simp [hml], hle⟩⟩
                        · intro hne; exact absurd rfl hne

/-! ### Characterization of the two polling loops -/

theorem wait_loop_spec (env : CloudEnv) (name rid : String) :
    ∀ (k fuel : Nat) (c : CallCounts), k < fuel →
    (∀ i, i < k → ∃ sti, env.describeRefresh (c.nDescribeRefresh + i) name rid =
        Except.ok sti ∧ isTerminalStatus sti = false) →
    ∀ (s : String),
    env.describeRefresh (c.nDescribeRefresh + k) name rid = Except.ok s →
    isTerminalStatus s = true →
    ∃ c', wait_for_instance_refresh_loop env name rid fuel c =
      some ⟨Except.ok none, c',
        (List.replicate k [RunEvent.call (AwsCall.describeRefresh name rid),
           RunEvent.logInfo "Instance refresh in progress...",
           RunEvent.sleep 10]).flatten ++
        [RunEvent.call (AwsCall.describeRefresh name rid),
         RunEvent.observedStatus s]⟩ := by
  intro k
  induction k with
  | zero =>
    intro fuel c hfuel hq s hs ht
    cases fuel with
    | zero => omega
    | succ fuel =>
      refine ⟨{ c with nDescribeRefresh := c.nDescribeRefresh + 1 }, ?_⟩
      have hs' : env.describeRefresh c.nDescribeRefresh name rid = Except.ok s := by
        simpa using hs
      unfold wait_for_instance_refresh_loop
      simp [hs', ht]
  | succ k ih =>
    intro fuel c hfuel hq s hs ht
    cases fuel with
    | zero => omega
    | succ fuel =>
      obtain ⟨st0, h0, hnt0⟩ := hq 0 (by omega)
      have h0' : env.describeRefresh c.nDescribeRefresh name rid = Except.ok st0 := by
        simpa using h0
      obtain ⟨c', hrec⟩ := ih fuel
        { c with nDescribeRefresh := c.nDescribeRefresh + 1 } (by omega)
        (fun i hi => by
          obtain ⟨sti, hi1, hi2⟩ := hq (i + 1) (by omega)
          refine ⟨sti, ?_, hi2⟩
          have : c.nDescribeRefresh + 1 + i = c.nDescribeRefresh + (i + 1) := by omega
          rw [show ({ c with nDescribeRefresh := c.nDescribeRefresh + 1 } :
              CallCounts).nDescribeRefresh + i = c.nDescribeRefresh + (i + 1) from by
            simp; omega]
          exact hi1)
        s (by
          rw [show ({ c with nDescribeRefresh := c.nDescribeRefresh + 1 } :
              CallCounts).nDescribeRefresh + k = c.nDescribeRefresh + (k + 1) from by
            simp; omega]
          exact hs)
        ht
      refine ⟨c', ?_⟩
      unfold wait_for_instance_refresh_loop
      simp [h0', hnt0, hrec, List.replicate_succ]

theorem terminate_old_instances_ok (env : CloudEnv)
    (hterm : ∀ j iid, env.terminateInstance j iid = Except.ok ()) :
    ∀ (l : List InstanceRecord) (c : CallCounts),
      (terminate_old_instances env l c).result = Except.ok () ∧
      (terminate_old_instances env l c).trace =
        l.map (fun inst => RunEvent.call (AwsCall.terminateInstance inst.instanceId)) ∧
      (terminate_old_instances env l c).state.nListInstances = c.nListInstances := by
  intro l
  induction l with
  | nil => intro c; simp [terminate_old_instances]
  | cons inst rest ih =>
    intro c
    unfold terminate_old_instances
    simp only [hterm]
    obtain ⟨h1, h2, h3⟩ := ih { c with nTerminateInstance := c.nTerminateInstance + 1 }
    exact ⟨h1, by simp [h2], h3⟩

theorem reaper_loop_spec (env : CloudEnv) (name : String)
    (hterm : ∀ j iid, env.terminateInstance j iid = Except.ok ()) :
    ∀ (n : Nat) (ls : Nat → List InstanceRecord) (fuel : Nat) (c : CallCounts),
    n < fuel →
    (∀ i, i ≤ n → env.listInstances (c.nListInstances + i) = Except.ok (ls i)) →
    (∀ i, i < n → (staleOf name (ls i)).isEmpty = false) →
    (staleOf name (ls n)).isEmpty = true →
    ∃ c', verify_old_instances_termination_loop env name fuel c =
      some ⟨Except.ok (), c',
        ((List.range n).map (fun i =>
           RunEvent.call AwsCall.listInstances ::
           RunEvent.observedInstances (ls i) ::
           RunEvent.logInfo "Waiting for old instances to terminate..." ::
           ((staleOf name (ls i)).map
             (fun inst => RunEvent.call (AwsCall.terminateInstance inst.instanceId)) ++
            [RunEvent.sleep 30]))).flatten ++
        [RunEvent.call AwsCall.listInstances,
         RunEvent.observedInstances (ls n),
         RunEvent.logInfo "Old instances have been terminated"]⟩ := by
  intro n
  induction n with
  | zero =>
    intro ls fuel c hfuel hls hne hemp
    cases fuel with
    | zero => omega
    | succ fuel =>
      have h0 : env.listInstances c.nListInstances = Except.ok (ls 0) := by
        simpa using hls 0 (by omega)
      refine ⟨{ c with nListInstances := c.nListInstances + 1 }, ?_⟩
      unfold verify_old_instances_termination_loop
      simp [h0, hemp]
  | succ n ih =>
    intro ls fuel c hfuel hls hne hemp
    cases fuel with
    | zero => omega
    | succ fuel =>
      have h0 : env.listInstances c.nListInstances = Except.ok (ls 0) := by
        simpa using hls 0 (by omega)
      have hne0 : (staleOf name (ls 0)).isEmpty = false := hne 0 (by omega)
      obtain ⟨ht1, ht2, ht3⟩ := terminate_old_instances_ok env hterm
        (staleOf name (ls 0)) { c with nListInstances := c.nListInstances + 1 }
      obtain ⟨c', hrec⟩ := ih (fun i => ls (i + 1)) fuel
        (terminate_old_instances env (staleOf name (ls 0))
          { c with nListInstances := c.nListInstances + 1 }).state
        (by omega)
        (fun i hi => by
          rw [ht3]
          rw [show ({ c with nListInstances := c.nListInstances + 1 } :
              CallCounts).nListInstances + i = c.nListInstances + (i + 1) from by
            simp; omega]
          exact hls (i + 1) (by omega))
        (fun i hi => hne (i + 1) (by omega))
        hemp
      refine ⟨c', ?_⟩
      unfold verify_old_instances_termination_loop
      simp [h0, hne0, ht1, ht2, hrec, List.range_succ_eq_map, List.map_map,
        Function.comp_def]

/-! ### Witness environments (concrete oracles for the closed theorems) -/

def wLt : LaunchTemplateRef := ⟨"lt-1", "1"⟩

def wAsg : AsgDetails := ⟨"grp", wLt, 1, 1, 1⟩

def wRC : InstanceRefreshConfig := ⟨90, 110, 60, true⟩

def wCfgSame : DeployConfig := ⟨"grp", "ami-1", 1, 1, 1, wRC⟩

def wCfgNew : DeployConfig := ⟨"grp", "ami-2", 2, 2, 2, wRC⟩

/-- Control plane on which nothing needs to change. -/
def wEnvNoChange : CloudEnv :=
  ⟨fun _ _ => Except.ok wAsg,
   fun _ _ _ => Except.ok "ami-1",
   fun k _ _ _ => Except.ok (2 + k),
   fun _ _ _ _ _ _ => Except.ok (),
   fun _ _ _ => Except.ok "rid-1",
   fun _ _ _ => Except.ok "Successful",
   fun _ => Except.ok [],
   fun _ _ => Except.ok ()⟩

/-- Control plane whose refresh is immediately `Failed`. -/
def wEnvFailedRefresh : CloudEnv :=
  ⟨fun _ _ => Except.ok wAsg,
   fun _ _ _ => Except.ok "ami-1",
   fun k _ _ _ => Except.ok (2 + k),
   fun _ _ _ _ _ _ => Except.ok (),
   fun _ _ _ => Except.ok "rid-1",
   fun _ _ _ => Except.ok "Failed",
   fun _ => Except.ok [],
   fun _ _ => Except.ok ()⟩

/-- Control plane with one `InProgress` poll before `Successful`. -/
def wEnvSlowRefresh : CloudEnv :=
  ⟨fun _ _ => Except.ok wAsg,
   fun _ _ _ => Except.ok "ami-1",
   fun k _ _ _ => Except.ok (2 + k),
   fun _ _ _ _ _ _ => Except.ok (),
   fun _ _ _ => Except.ok "rid-1",
   fun k _ _ => if k = 0 then Except.ok "InProgress" else Except.ok "Successful",
   fun _ => Except.ok [],
   fun _ _ => Except.ok ()⟩

/-- Control plane whose first listing has one stale instance of the group
(and one of another group), and whose second listing has none. -/
def wEnvStale : CloudEnv :=
  ⟨fun _ _ => Except.ok wAsg,
   fun _ _ _ => Except.ok "ami-1",
   fun k _ _ _ => Except.ok (2 + k),
   fun _ _ _ _ _ _ => Except.ok (),
   fun _ _ _ => Except.ok "rid-1",
   fun _ _ _ => Except.ok "Successful",
   fun k => if k = 0 then
       Except.ok [⟨"i-1", "grp", "Terminating"⟩, ⟨"i-2", "other", "Terminating"⟩,
         ⟨"i-3", "grp", "InService"⟩]
     else Except.ok [⟨"i-3", "grp", "InService"⟩],
   fun _ _ => Except.ok ()⟩

/-- Control plane whose group-update call fails transiently once and then
succeeds; everything else succeeds. -/
def wEnvFlakyUpdate : CloudEnv :=
  ⟨fun _ _ => Except.ok wAsg,
   fun _ _ _ => Except.ok "ami-1",
   fun k _ _ _ => Except.ok (2 + k),
   fun k _ _ _ _ _ =>
     if k = 0 then Except.error (AwsError.clientError "throttled") else Except.ok (),
   fun _ _ _ => Except.ok "rid-1",
   fun _ _ _ => Except.ok "Successful",
   fun _ => Except.ok [],
   fun _ _ => Except.ok ()⟩

/-- Control plane on which the group name does not resolve. -/
def wEnvNotFound : CloudEnv :=
  ⟨fun _ _ => Except.error (AwsError.valueError "Auto Scaling Group grp not found"),
   fun _ _ _ => Except.ok "ami-1",
   fun k _ _ _ => Except.ok (2 + k),
   fun _ _ _ _ _ _ => Except.ok (),
   fun _ _ _ => Except.ok "rid-1",
   fun _ _ _ => Except.ok "Successful",
   fun _ => Except.ok [],
   fun _ _ => Except.ok ()⟩

/-! ### C3 -/

/-- C3: every wrapped call that fails with the transient classification
(`ClientError`) on each execution is attempted exactly 3 times, with
inter-attempt waits `min(10, max(2, 2^(attempt-1)))` (clipped to [2,10]),
after which the failure of the last attempt propagates to the caller
(tenacity's `RetryError` wrapping the last transient error); a failure with
any other classification (`ValueError`/NotFound or unclassified) propagates
after exactly one attempt with no retry and no wait. -/
theorem retry_policy_spec :
    (∀ (f : Nat → Except AwsError Unit) (e1 e2 e3 : AwsError),
      f 1 = Except.error e1 → f 2 = Except.error e2 → f 3 = Except.error e3 →
      e1.isRetryable = true → e2.isRetryable = true → e3.isRetryable = true →
      retryPolicy f = some ⟨Except.error (AwsError.retryErr e3), 4, [], 3,
        [min 10 (max 2 (2 ^ (1 - 1))), min 10 (max 2 (2 ^ (2 - 1)))]⟩)
    ∧ (∀ (f : Nat → Except AwsError Unit) (e : AwsError),
      f 1 = Except.error e → e.isRetryable = false →
      retryPolicy f = some ⟨Except.error e, 2, [], 1, []⟩) := by
  constructor
  · intro f e1 e2 e3 h1 h2 h3 r1 r2 r3
    have h := tenacityRetry_exhaust (singleCallBody f) 1 2 3 4 e1 e2 e3 [] [] []
      (by simp [singleCallBody, h1]) r1 (by simp [singleCallBody, h2]) r2
      (by simp [singleCallBody, h3]) r3
    rw [show [min 10 (max 2 (2 ^ (1 - 1))), min 10 (max 2 (2 ^ (2 - 1)))] =
      [2, 2] from by decide]
    simpa [retryPolicy] using h
  · intro f e h1 he
    have h := tenacityRetry_fatal (singleCallBody f) 1 2 e []
      (by simp [singleCallBody, h1]) he
    simpa [retryPolicy] using h

theorem retry_policy_spec_witness :
    retryPolicy (fun _ => Except.error (AwsError.clientError "throttled")) =
      some ⟨Except.error (AwsError.retryErr (AwsError.clientError "throttled")),
        4, [], 3, [2, 2]⟩ ∧
    retryPolicy (fun _ => Except.error (AwsError.valueError "not found")) =
      some ⟨Except.error (AwsError.valueError "not found"), 2, [], 1, []⟩ := by
  constructor
  · have h := retry_policy_spec.1
      (fun _ => Except.error (AwsError.clientError "throttled"))
      _ _ _ rfl rfl rfl rfl rfl rfl
    rw [show [min 10 (max 2 (2 ^ (1 - 1))), min 10 (max 2 (2 ^ (2 - 1)))] =
      [2, 2] from by decide] at h
    exact h
  · exact retry_policy_spec.2 _ _ rfl rfl

/-! ### C4 -/

/-- C4: the refresh poll queries the status repeatedly with a fixed
`time.sleep(10)` between consecutive queries, stops at the first status in
the terminal set {Successful, Failed, Cancelled}, and performs no status
query after the terminal one: when the control plane answers `k`
non-terminal statuses followed by a terminal one, the event trace is
exactly `k` blocks query/log/sleep(10) followed by one final query
observing the terminal status, with nothing after it. -/
theorem refresh_poll_stops_at_first_terminal (env : CloudEnv)
    (name rid : String) (k fuel : Nat) (c : CallCounts) (s : String)
    (hfuel : k < fuel)
    (hq : ∀ i, i < k → ∃ sti,
      env.describeRefresh (c.nDescribeRefresh + i) name rid = Except.ok sti ∧
      isTerminalStatus sti = false)
    (hs : env.describeRefresh (c.nDescribeRefresh + k) name rid = Except.ok s)
    (ht : isTerminalStatus s = true) :
    ∃ c', wait_for_instance_refresh env name rid fuel c =
      some ⟨Except.ok none, c',
        RunEvent.logInfo "Waiting for instance refresh to complete" ::
          ((List.replicate k [RunEvent.call (AwsCall.describeRefresh name rid),
             RunEvent.logInfo "Instance refresh in progress...",
             RunEvent.sleep 10]).flatten ++
           [RunEvent.call (AwsCall.describeRefresh name rid),
            RunEvent.observedStatus s]), 1, []⟩ := by
  obtain ⟨c', hloop⟩ := wait_loop_spec env name rid k fuel c hfuel hq s hs ht
  refine ⟨c', ?_⟩
  apply tenacityRetry_ok
  unfold wait_for_instance_refresh_attempt
  simp [hloop]

theorem refresh_poll_witness :
    ∃ c', wait_for_instance_refresh wEnvSlowRefresh "grp" "rid-1" 2 CallCounts.zero =
      some ⟨Except.ok none, c',
        RunEvent.logInfo "Waiting for instance refresh to complete" ::
          ((List.replicate 1 [RunEvent.call (AwsCall.describeRefresh "grp" "rid-1"),
             RunEvent.logInfo "Instance refresh in progress...",
             RunEvent.sleep 10]).flatten ++
           [RunEvent.call (AwsCall.describeRefresh "grp" "rid-1"),
            RunEvent.observedStatus "Successful"]), 1, []⟩ :=
  refresh_poll_stops_at_first_terminal wEnvSlowRefresh "grp" "rid-1" 1 2
    CallCounts.zero "Successful" (by decide)
    (fun i hi => ⟨"InProgress", by
      have hz : i = 0 := by omega
      subst hz
      exact ⟨rfl, rfl⟩⟩)
    rfl rfl

/-! ### C5 -/

/-- C5: the reaper filters each listing to instances of the group whose
lifecycle state is not `InService`; if that set is empty on the first
listing, it exits after a single listing with zero terminate calls and zero
sleeps; otherwise each iteration issues one terminate call per stale
instance, sleeps 30 time units, re-lists, and only exits on an iteration
whose stale set is empty — the full event trace is exactly the
corresponding sequence of blocks. -/
theorem reaper_terminates_stale_instances (env : CloudEnv) (name : String)
    (ls : Nat → List InstanceRecord) (n fuel : Nat) (c : CallCounts)
    (hterm : ∀ j iid, env.terminateInstance j iid = Except.ok ())
    (hfuel : n < fuel)
    (hls : ∀ i, i ≤ n → env.listInstances (c.nListInstances + i) = Except.ok (ls i))
    (hne : ∀ i, i < n → (staleOf name (ls i)).isEmpty = false)
    (hemp : (staleOf name (ls n)).isEmpty = true) :
    ∃ c', verify_old_instances_termination env name fuel c =
      some ⟨Except.ok (), c',
        RunEvent.logInfo "Verifying that old instances are terminated" ::
          (((List.range n).map (fun i =>
             RunEvent.call AwsCall.listInstances ::
             RunEvent.observedInstances (ls i) ::
             RunEvent.logInfo "Waiting for old instances to terminate..." ::
             ((staleOf name (ls i)).map
               (fun inst => RunEvent.call (AwsCall.terminateInstance inst.instanceId)) ++
              [RunEvent.sleep 30]))).flatten ++
           [RunEvent.call AwsCall.listInstances,
            RunEvent.observedInstances (ls n),
            RunEvent.logInfo "Old instances have been terminated"]), 1, []⟩ := by
  obtain ⟨c', hloop⟩ := reaper_loop_spec env name hterm n ls fuel c hfuel hls hne hemp
  refine ⟨c', ?_⟩
  apply tenacityRetry_ok
  unfold verify_old_instances_termination_attempt
  simp [hloop]

theorem reaper_witness :
    (∃ c', verify_old_instances_termination wEnvStale "grp" 2 CallCounts.zero =
      some ⟨Except.ok (), c',
        RunEvent.logInfo "Verifying that old instances are terminated" ::
          (((List.range 1).map (fun i =>
             RunEvent.call AwsCall.listInstances ::
             RunEvent.observedInstances
               (if i = 0 then
                 [⟨"i-1", "grp", "Terminating"⟩, ⟨"i-2", "other", "Terminating"⟩,
                  ⟨"i-3", "grp", "InService"⟩]
                else [⟨"i-3", "grp", "InService"⟩]) ::
             RunEvent.logInfo "Waiting for old instances to terminate..." ::
             ((staleOf "grp"
               (if i = 0 then
                 [⟨"i-1", "grp", "Terminating"⟩, ⟨"i-2", "other", "Terminating"⟩,
                  ⟨"i-3", "grp", "InService"⟩]
                else [⟨"i-3", "grp", "InService"⟩])).map
               (fun inst => RunEvent.call (AwsCall.terminateInstance inst.instanceId)) ++
              [RunEvent.sleep 30]))).flatten ++
           [RunEvent.call AwsCall.listInstances,
            RunEvent.observedInstances [⟨"i-3", "grp", "InService"⟩],
            RunEvent.logInfo "Old instances have been terminated"]), 1, []⟩) ∧
    (∃ c', verify_old_instances_termination wEnvNoChange "grp" 1 CallCounts.zero =
      some ⟨Except.ok (), c',
        RunEvent.logInfo "Verifying that old instances are terminated" ::
          (((List.range 0).map (fun _ => ([] : List RunEvent))).flatten ++
           [RunEvent.call AwsCall.listInstances,
            RunEvent.observedInstances [],
            RunEvent.logInfo "Old instances have been terminated"]), 1, []⟩) := by
  constructor
  · exact reaper_terminates_stale_instances wEnvStale "grp"
      (fun k => if k = 0 then
          [⟨"i-1", "grp", "Terminating"⟩, ⟨"i-2", "other", "Terminating"⟩,
           ⟨"i-3", "grp", "InService"⟩]
        else [⟨"i-3", "grp", "InService"⟩]) 1 2 CallCounts.zero
      (fun _ _ => rfl) (by decide)
      (fun i hi => by
        interval_cases i <;> rfl)
      (fun i hi => by
        have hz : i = 0 := by omega
        subst hz
        decide)
      (by decide)
  · have h := reaper_terminates_stale_instances wEnvNoChange "grp"
      (fun _ => []) 0 1 CallCounts.zero
      (fun _ _ => rfl) (by decide)
      (fun i hi => by
        have hz : i = 0 := by omega
        subst hz
        rfl)
      (fun i hi => by omega)
      (by decide)
    simpa using h

/-! ### C7 -/

/-- C7 counterexample: `wait_for_instance_refresh` does not return the
observed terminal status; on a control plane whose refresh status is
`Failed` at the first query, its return value (the Python function's
return value channel) is `None`, not the observed status `Failed`, which is
only recorded in the log. -/
theorem wait_refresh_returns_none_cex :
    (wait_for_instance_refresh wEnvFailedRefresh "grp" "rid-1" 1
        CallCounts.zero).map
      (fun rr => (rr.result,
        rr.trace.contains (RunEvent.observedStatus "Failed"))) =
      some (Except.ok none, true) ∧
    (Except.ok none : Except AwsError (Option String)) ≠
      Except.ok (some "Failed") := by
  constructor
  · decide
  · decide

/-- C7 amended: `wait_for_instance_refresh` stops at the first terminal
status and records which terminal status it observed in its log trace, but
it returns `None` for every terminal status — `Failed`/`Cancelled` are not
distinguished from `Successful` in the returned value, and it is the
caller's (trivial) policy to treat any terminal outcome as completed. -/
theorem wait_refresh_propagates_none (env : CloudEnv)
    (name rid : String) (k fuel : Nat) (c : CallCounts) (s : String)
    (hfuel : k < fuel)
    (hq : ∀ i, i < k → ∃ sti,
      env.describeRefresh (c.nDescribeRefresh + i) name rid = Except.ok sti ∧
      isTerminalStatus sti = false)
    (hs : env.describeRefresh (c.nDescribeRefresh + k) name rid = Except.ok s)
    (ht : isTerminalStatus s = true) :
    ∃ c' t, wait_for_instance_refresh env name rid fuel c =
        some ⟨Except.ok none, c', t, 1, []⟩ ∧
      RunEvent.observedStatus s ∈ t := by
  obtain ⟨c', hloop⟩ := wait_loop_spec env name rid k fuel c hfuel hq s hs ht
  refine ⟨c', RunEvent.logInfo "Waiting for instance refresh to complete" ::
    ((List.replicate k [RunEvent.call (AwsCall.describeRefresh name rid),
       RunEvent.logInfo "Instance refresh in progress...",
       RunEvent.sleep 10]).flatten ++
     [RunEvent.call (AwsCall.describeRefresh name rid),
      RunEvent.observedStatus s]), ?_, ?_⟩
  · apply tenacityRetry_ok
    unfold wait_for_instance_refresh_attempt
    simp [hloop]
  · simp

theorem wait_refresh_propagates_none_witness :
    ∃ c' t, wait_for_instance_refresh wEnvFailedRefresh "grp" "rid-1" 1
        CallCounts.zero = some ⟨Except.ok none, c', t, 1, []⟩ ∧
      RunEvent.observedStatus "Failed" ∈ t :=
  wait_refresh_propagates_none wEnvFailedRefresh "grp" "rid-1" 0 1
    CallCounts.zero "Failed" (by decide) (fun i hi => absurd hi (by omega))
    rfl rfl

/-! ### C2 -/

/-- C2: when the resolved current image id differs from the target, exactly
one new launch-template version is created, derived from the snapshot's
current version with the target image id, exactly one group-update call is
issued carrying the target desired/min/max and a reference to the new
version, and the new version number is returned (non-null) — with no
condition on the capacities. -/
theorem image_change_publishes_one_new_version (env : CloudEnv)
    (asg : AsgDetails) (new_ami_id : String) (d mn mx : Int)
    (c : CallCounts) (cur : String) (nv : Int)
    (hres : env.describeLtVersion c.nDescribeLtVersion
      asg.launchTemplate.launchTemplateId asg.launchTemplate.version =
      Except.ok cur)
    (hne : cur ≠ new_ami_id)
    (hcreate : env.createLtVersion c.nCreateLtVersion
      asg.launchTemplate.launchTemplateId asg.launchTemplate.version new_ami_id =
      Except.ok nv)
    (hupd : env.updateAsg c.nUpdateAsg asg.autoScalingGroupName d mn mx
      (some ⟨asg.launchTemplate.launchTemplateId, toString nv⟩) = Except.ok ()) :
    update_auto_scaling_group env asg new_ami_id d mn mx c =
      some ⟨Except.ok (VersionResult.newVersion nv),
        ⟨c.nDescribeAsg, c.nDescribeLtVersion + 1, c.nCreateLtVersion + 1,
         c.nUpdateAsg + 1, c.nStartRefresh, c.nDescribeRefresh,
         c.nListInstances, c.nTerminateInstance⟩,
        [RunEvent.logInfo
           "Checking if Auto Scaling Group needs to be updated with new AMI or capacity settings",
         RunEvent.logInfo "Retrieving current AMI ID from launch template",
         RunEvent.call (AwsCall.describeLtVersion
           asg.launchTemplate.launchTemplateId asg.launchTemplate.version),
         RunEvent.logInfo "Updating Auto Scaling Group with new settings",
         RunEvent.logInfo "AMI ID has changed, creating new version of the launch template",
         RunEvent.call (AwsCall.createLtVersion
           asg.launchTemplate.launchTemplateId asg.launchTemplate.version new_ami_id),
         RunEvent.call (AwsCall.updateAsg asg.autoScalingGroupName d mn mx
           (some ⟨asg.launchTemplate.launchTemplateId, toString nv⟩))],
        1, []⟩ ∧
    VersionResult.newVersion nv ≠ VersionResult.noUpdate := by
  constructor
  · have hga : get_current_ami_id env asg.launchTemplate.launchTemplateId
        asg.launchTemplate.version c = some ⟨Except.ok cur,
        ⟨c.nDescribeAsg, c.nDescribeLtVersion + 1, c.nCreateLtVersion,
         c.nUpdateAsg, c.nStartRefresh, c.nDescribeRefresh, c.nListInstances,
         c.nTerminateInstance⟩,
        [RunEvent.logInfo "Retrieving current AMI ID from launch template",
         RunEvent.call (AwsCall.describeLtVersion
           asg.launchTemplate.launchTemplateId asg.launchTemplate.version)],
        1, []⟩ := by
      apply tenacityRetry_ok
      unfold get_current_ami_id_attempt
      simp [hres]
    apply tenacityRetry_ok
    unfold update_auto_scaling_group_attempt
    simp [hga, hne, hcreate, hupd]
  · simp

theorem image_change_witness :
    update_auto_scaling_group wEnvNoChange wAsg "ami-2" 2 2 2 CallCounts.zero =
      some ⟨Except.ok (VersionResult.newVersion 2),
        ⟨0, 1, 1, 1, 0, 0, 0, 0⟩,
        [RunEvent.logInfo
           "Checking if Auto Scaling Group needs to be updated with new AMI or capacity settings",
         RunEvent.logInfo "Retrieving current AMI ID from launch template",
         RunEvent.call (AwsCall.describeLtVersion "lt-1" "1"),
         RunEvent.logInfo "Updating Auto Scaling Group with new settings",
         RunEvent.logInfo "AMI ID has changed, creating new version of the launch template",
         RunEvent.call (AwsCall.createLtVersion "lt-1" "1" "ami-2"),
         RunEvent.call (AwsCall.updateAsg "grp" 2 2 2
           (some ⟨"lt-1", toString (2 : Int)⟩))],
        1, []⟩ ∧
    VersionResult.newVersion 2 ≠ VersionResult.noUpdate :=
  image_change_publishes_one_new_version wEnvNoChange wAsg "ami-2" 2 2 2
    CallCounts.zero "ami-1" 2 rfl (by decide) rfl rfl

/-! ### C1 -/

/-- C1: when the resolved image id equals the target and desired/min/max
all equal the snapshot's, `update_auto_scaling_group` returns `None`
having issued only the read-only image-id lookup, and the whole
orchestrator run completes with zero mutating control-plane calls — no
new version, no group update, no refresh start, no status polling and no
instance termination. -/
theorem no_update_needed_is_noop (env : CloudEnv) (cfg : DeployConfig)
    (asg : AsgDetails) (fuel : Nat)
    (hasg : env.describeAsg 0 cfg.autoScalingGroup = Except.ok asg)
    (hres : env.describeLtVersion 0 asg.launchTemplate.launchTemplateId
      asg.launchTemplate.version = Except.ok cfg.amiId)
    (hdes : asg.desiredCapacity = cfg.desiredCapacity)
    (hmin : asg.minSize = cfg.minSize)
    (hmax : asg.maxSize = cfg.maxSize) :
    update_auto_scaling_group env asg cfg.amiId cfg.desiredCapacity
      cfg.minSize cfg.maxSize ⟨1, 0, 0, 0, 0, 0, 0, 0⟩ =
      some ⟨Except.ok VersionResult.noUpdate, ⟨1, 1, 0, 0, 0, 0, 0, 0⟩,
        [RunEvent.logInfo
           "Checking if Auto Scaling Group needs to be updated with new AMI or capacity settings",
         RunEvent.logInfo "Retrieving current AMI ID from launch template",
         RunEvent.call (AwsCall.describeLtVersion
           asg.launchTemplate.launchTemplateId asg.launchTemplate.version),
         RunEvent.logInfo
           "AMI ID, desired capacity, min size, and max size have not changed, no update required"],
        1, []⟩ ∧
    ∃ tr, Deployment.run env cfg fuel = some (RunOutcome.completed, tr) ∧
      tr.filter RunEvent.isMutatingEv = [] ∧
      (∀ n rid, RunEvent.call (AwsCall.describeRefresh n rid) ∉ tr) ∧
      (∀ iid, RunEvent.call (AwsCall.terminateInstance iid) ∉ tr) ∧
      RunEvent.call AwsCall.listInstances ∉ tr := by
  have hga : get_current_ami_id env asg.launchTemplate.launchTemplateId
      asg.launchTemplate.version ⟨1, 0, 0, 0, 0, 0, 0, 0⟩ =
      some ⟨Except.ok cfg.amiId, ⟨1, 1, 0, 0, 0, 0, 0, 0⟩,
        [RunEvent.logInfo "Retrieving current AMI ID from launch template",
         RunEvent.call (AwsCall.describeLtVersion
           asg.launchTemplate.launchTemplateId asg.launchTemplate.version)],
        1, []⟩ := by
    apply tenacityRetry_ok
    unfold get_current_ami_id_attempt
    simp [hres]
  have h2 : update_auto_scaling_group env asg cfg.amiId cfg.desiredCapacity
      cfg.minSize cfg.maxSize ⟨1, 0, 0, 0, 0, 0, 0, 0⟩ =
      some ⟨Except.ok VersionResult.noUpdate, ⟨1, 1, 0, 0, 0, 0, 0, 0⟩,
        [RunEvent.logInfo
           "Checking if Auto Scaling Group needs to be updated with new AMI or capacity settings",
         RunEvent.logInfo "Retrieving current AMI ID from launch template",
         RunEvent.call (AwsCall.describeLtVersion
           asg.launchTemplate.launchTemplateId asg.launchTemplate.version),
         RunEvent.logInfo
           "AMI ID, desired capacity, min size, and max size have not changed, no update required"],
        1, []⟩ := by
    apply tenacityRetry_ok
    unfold update_auto_scaling_group_attempt
    simp [hga, hdes, hmin, hmax]
  refine ⟨h2, ?_⟩
  have h1 : get_current_asg_details env cfg.autoScalingGroup CallCounts.zero =
      some ⟨Except.ok asg, ⟨1, 0, 0, 0, 0, 0, 0, 0⟩,
        [RunEvent.logInfo "Retrieving details for Auto Scaling Group",
         RunEvent.call (AwsCall.describeAsg cfg.autoScalingGroup)], 1, []⟩ := by
    apply tenacityRetry_ok
    unfold get_current_asg_details_attempt
    simp [hasg, CallCounts.zero]
  refine ⟨[RunEvent.logInfo "Starting deployment process",
    RunEvent.logInfo "Initializing AWS SDK",
    RunEvent.logInfo "Retrieving details for Auto Scaling Group",
    RunEvent.call (AwsCall.describeAsg cfg.autoScalingGroup),
    RunEvent.logInfo "ASG Details",
    RunEvent.logInfo
      "Checking if Auto Scaling Group needs to be updated with new AMI or capacity settings",
    RunEvent.logInfo "Retrieving current AMI ID from launch template",
    RunEvent.call (AwsCall.describeLtVersion
      asg.launchTemplate.launchTemplateId asg.launchTemplate.version),
    RunEvent.logInfo
      "AMI ID, desired capacity, min size, and max size have not changed, no update required",
    RunEvent.logInfo
      "No update required, AMI ID, desired capacity, min size, and max size have not changed",
    successMarker], ?_, ?_, ?_, ?_, ?_⟩
  · unfold Deployment.run
    simp [h1, h2]
  · simp [RunEvent.isMutatingEv, AwsCall.isMutating]
  · intro n rid
    simp [successMarker]
  · intro iid
    simp [successMarker]
  · simp [successMarker]

theorem no_update_needed_witness :
    update_auto_scaling_group wEnvNoChange wAsg "ami-1" 1 1 1
      ⟨1, 0, 0, 0, 0, 0, 0, 0⟩ =
      some ⟨Except.ok VersionResult.noUpdate, ⟨1, 1, 0, 0, 0, 0, 0, 0⟩,
        [RunEvent.logInfo
           "Checking if Auto Scaling Group needs to be updated with new AMI or capacity settings",
         RunEvent.logInfo "Retrieving current AMI ID from launch template",
         RunEvent.call (AwsCall.describeLtVersion "lt-1" "1"),
         RunEvent.logInfo
           "AMI ID, desired capacity, min size, and max size have not changed, no update required"],
        1, []⟩ ∧
    ∃ tr, Deployment.run wEnvNoChange wCfgSame 1 =
        some (RunOutcome.completed, tr) ∧
      tr.filter RunEvent.isMutatingEv = [] ∧
      (∀ n rid, RunEvent.call (AwsCall.describeRefresh n rid) ∉ tr) ∧
      (∀ iid, RunEvent.call (AwsCall.terminateInstance iid) ∉ tr) ∧
      RunEvent.call AwsCall.listInstances ∉ tr :=
  no_update_needed_is_noop wEnvNoChange wCfgSame wAsg 1 rfl rfl rfl rfl rfl

/-! ### C6 -/

/-- C6: when the resolved image id equals the target but a capacity
differs, no new launch-template version is created, exactly one
group-update call is issued with the target capacities and no
configuration reference, the snapshot's existing version token is
returned (which is not the `None`/no-update result), and the orchestrator
treats it as "update happened" and proceeds to start an instance refresh. -/
theorem capacity_change_uses_existing_version (env : CloudEnv)
    (cfg : DeployConfig) (asg : AsgDetails) (m : Nat) (rid s : String)
    (l0 : List InstanceRecord)
    (hasg : env.describeAsg 0 cfg.autoScalingGroup = Except.ok asg)
    (hres : env.describeLtVersion 0 asg.launchTemplate.launchTemplateId
      asg.launchTemplate.version = Except.ok cfg.amiId)
    (hcap : ¬(asg.desiredCapacity = cfg.desiredCapacity ∧
      asg.minSize = cfg.minSize ∧ asg.maxSize = cfg.maxSize))
    (hupd : env.updateAsg 0 asg.autoScalingGroupName cfg.desiredCapacity
      cfg.minSize cfg.maxSize none = Except.ok ())
    (hstart : env.startRefresh 0 cfg.autoScalingGroup cfg.instanceRefresh =
      Except.ok rid)
    (hrefresh : env.describeRefresh 0 cfg.autoScalingGroup rid = Except.ok s)
    (hts : isTerminalStatus s = true)
    (hlist : env.listInstances 0 = Except.ok l0)
    (hempty : (staleOf cfg.autoScalingGroup l0).isEmpty = true) :
    update_auto_scaling_group env asg cfg.amiId cfg.desiredCapacity
      cfg.minSize cfg.maxSize ⟨1, 0, 0, 0, 0, 0, 0, 0⟩ =
      some ⟨Except.ok (VersionResult.existingVersion asg.launchTemplate.version),
        ⟨1, 1, 0, 1, 0, 0, 0, 0⟩,
        [RunEvent.logInfo
           "Checking if Auto Scaling Group needs to be updated with new AMI or capacity settings",
         RunEvent.logInfo "Retrieving current AMI ID from launch template",
         RunEvent.call (AwsCall.describeLtVersion
           asg.launchTemplate.launchTemplateId asg.launchTemplate.version),
         RunEvent.logInfo "Updating Auto Scaling Group with new settings",
         RunEvent.call (AwsCall.updateAsg asg.autoScalingGroupName
           cfg.desiredCapacity cfg.minSize cfg.maxSize none)],
        1, []⟩ ∧
    VersionResult.existingVersion asg.launchTemplate.version ≠
      VersionResult.noUpdate ∧
    ∃ tr, Deployment.run env cfg (m + 1) = some (RunOutcome.completed, tr) ∧
      RunEvent.call (AwsCall.startRefresh cfg.autoScalingGroup
        cfg.instanceRefresh) ∈ tr ∧
      (∀ ltId v ami, RunEvent.call (AwsCall.createLtVersion ltId v ami) ∉ tr) := by
  have hga : get_current_ami_id env asg.launchTemplate.launchTemplateId
      asg.launchTemplate.version ⟨1, 0, 0, 0, 0, 0, 0, 0⟩ =
      some ⟨Except.ok cfg.amiId, ⟨1, 1, 0, 0, 0, 0, 0, 0⟩,
        [RunEvent.logInfo "Retrieving current AMI ID from launch template",
         RunEvent.call (AwsCall.describeLtVersion
           asg.launchTemplate.launchTemplateId asg.launchTemplate.version)],
        1, []⟩ := by
    apply tenacityRetry_ok
    unfold get_current_ami_id_attempt
    simp [hres]
  have h2 : update_auto_scaling_group env asg cfg.amiId cfg.desiredCapacity
      cfg.minSize cfg.maxSize ⟨1, 0, 0, 0, 0, 0, 0, 0⟩ =
      some ⟨Except.ok (VersionResult.existingVersion asg.launchTemplate.version),
        ⟨1, 1, 0, 1, 0, 0, 0, 0⟩,
        [RunEvent.logInfo
           "Checking if Auto Scaling Group needs to be updated with new AMI or capacity settings",
         RunEvent.logInfo "Retrieving current AMI ID from launch template",
         RunEvent.call (AwsCall.describeLtVersion
           asg.launchTemplate.launchTemplateId asg.launchTemplate.version),
         RunEvent.logInfo "Updating Auto Scaling Group with new settings",
         RunEvent.call (AwsCall.updateAsg asg.autoScalingGroupName
           cfg.desiredCapacity cfg.minSize cfg.maxSize none)],
        1, []⟩ := by
    apply tenacityRetry_ok
    unfold update_auto_scaling_group_attempt
    simp [hga, hcap, hupd]
  refine ⟨h2, by simp, ?_⟩
  have h1 : get_current_asg_details env cfg.autoScalingGroup CallCounts.zero =
      some ⟨Except.ok asg, ⟨1, 0, 0, 0, 0, 0, 0, 0⟩,
        [RunEvent.logInfo "Retrieving details for Auto Scaling Group",
         RunEvent.call (AwsCall.describeAsg cfg.autoScalingGroup)], 1, []⟩ := by
    apply tenacityRetry_ok
    unfold get_current_asg_details_attempt
    simp [hasg, CallCounts.zero]
  have h3 : start_instance_refresh env cfg.autoScalingGroup cfg.instanceRefresh
      ⟨1, 1, 0, 1, 0, 0, 0, 0⟩ =
      some ⟨Except.ok rid, ⟨1, 1, 0, 1, 1, 0, 0, 0⟩,
        [RunEvent.logInfo "Starting instance refresh for ASG",
         RunEvent.call (AwsCall.startRefresh cfg.autoScalingGroup
           cfg.instanceRefresh)], 1, []⟩ := by
    apply tenacityRetry_ok
    unfold start_instance_refresh_attempt
    simp [hstart]
  have h4 : wait_for_instance_refresh env cfg.autoScalingGroup rid (m + 1)
      ⟨1, 1, 0, 1, 1, 0, 0, 0⟩ =
      some ⟨Except.ok none, ⟨1, 1, 0, 1, 1, 1, 0, 0⟩,
        [RunEvent.logInfo "Waiting for instance refresh to complete",
         RunEvent.call (AwsCall.describeRefresh cfg.autoScalingGroup rid),
         RunEvent.observedStatus s], 1, []⟩ := by
    apply tenacityRetry_ok
    unfold wait_for_instance_refresh_attempt wait_for_instance_refresh_loop
    simp [hrefresh, hts]
  have h5 : verify_old_instances_termination env cfg.autoScalingGroup (m + 1)
      ⟨1, 1, 0, 1, 1, 1, 0, 0⟩ =
      some ⟨Except.ok (), ⟨1, 1, 0, 1, 1, 1, 1, 0⟩,
        [RunEvent.logInfo "Verifying that old instances are terminated",
         RunEvent.call AwsCall.listInstances,
         RunEvent.observedInstances l0,
         RunEvent.logInfo "Old instances have been terminated"], 1, []⟩ := by
    apply tenacityRetry_ok
    unfold verify_old_instances_termination_attempt
      verify_old_instances_termination_loop
    simp [hlist, hempty]
  refine ⟨[RunEvent.logInfo "Starting deployment process",
    RunEvent.logInfo "Initializing AWS SDK",
    RunEvent.logInfo "Retrieving details for Auto Scaling Group",
    RunEvent.call (AwsCall.describeAsg cfg.autoScalingGroup),
    RunEvent.logInfo "ASG Details",
    RunEvent.logInfo
      "Checking if Auto Scaling Group needs to be updated with new AMI or capacity settings",
    RunEvent.logInfo "Retrieving current AMI ID from launch template",
    RunEvent.call (AwsCall.describeLtVersion
      asg.launchTemplate.launchTemplateId asg.launchTemplate.version),
    RunEvent.logInfo "Updating Auto Scaling Group with new settings",
    RunEvent.call (AwsCall.updateAsg asg.autoScalingGroupName
      cfg.desiredCapacity cfg.minSize cfg.maxSize none),
    RunEvent.logInfo "ASG updated to use new launch template version",
    RunEvent.logInfo "Starting instance refresh for ASG",
    RunEvent.call (AwsCall.startRefresh cfg.autoScalingGroup cfg.instanceRefresh),
    RunEvent.logInfo "Started instance refresh",
    RunEvent.logInfo "Waiting for instance refresh to complete",
    RunEvent.call (AwsCall.describeRefresh cfg.autoScalingGroup rid),
    RunEvent.observedStatus s,
    RunEvent.logInfo "Instance refresh completed successfully",
    RunEvent.logInfo "Verifying that old instances are terminated",
    RunEvent.call AwsCall.listInstances,
    RunEvent.observedInstances l0,
    RunEvent.logInfo "Old instances have been terminated",
    RunEvent.logInfo "Old instances have been terminated",
    successMarker], ?_, ?_, ?_⟩
  · unfold Deployment.run
    simp [h1, h2, h3, h4, h5]
  · simp
  · intro ltId v ami
    simp [successMarker]

def wCfgCap : DeployConfig := ⟨"grp", "ami-1", 2, 2, 2, wRC⟩

theorem capacity_change_witness :
    update_auto_scaling_group wEnvNoChange wAsg "ami-1" 2 2 2
      ⟨1, 0, 0, 0, 0, 0, 0, 0⟩ =
      some ⟨Except.ok (VersionResult.existingVersion "1"),
        ⟨1, 1, 0, 1, 0, 0, 0, 0⟩,
        [RunEvent.logInfo
           "Checking if Auto Scaling Group needs to be updated with new AMI or capacity settings",
         RunEvent.logInfo "Retrieving current AMI ID from launch template",
         RunEvent.call (AwsCall.describeLtVersion "lt-1" "1"),
         RunEvent.logInfo "Updating Auto Scaling Group with new settings",
         RunEvent.call (AwsCall.updateAsg "grp" 2 2 2 none)],
        1, []⟩ ∧
    VersionResult.existingVersion "1" ≠ VersionResult.noUpdate ∧
    ∃ tr, Deployment.run wEnvNoChange wCfgCap (0 + 1) =
        some (RunOutcome.completed, tr) ∧
      RunEvent.call (AwsCall.startRefresh "grp" wRC) ∈ tr ∧
      (∀ ltId v ami, RunEvent.call (AwsCall.createLtVersion ltId v ami) ∉ tr) :=
  capacity_change_uses_existing_version wEnvNoChange wCfgCap wAsg 0 "rid-1"
    "Successful" [] rfl rfl (by decide) rfl rfl rfl (by decide) rfl (by decide)

/-! ### C8 -/

/-- C8 counterexample: on a control plane where nothing needs to change,
the run takes the no-update path, never invokes the reaper (zero
`listInstances` calls, zero observed listings), and still logs the final
success marker — so the success marker is not preceded by any reaper
listing with an empty stale subset. -/
theorem success_logged_without_reaper_cex :
    (Deployment.run wEnvNoChange wCfgSame 1).map (fun p =>
      (p.1, p.2.contains successMarker,
       p.2.contains (RunEvent.call AwsCall.listInstances),
       (p.2.filter (fun ev => match ev with
         | RunEvent.observedInstances _ => true
         | _ => false)).length)) =
      some (RunOutcome.completed, true, false, 0) := by decide

/-- C8 amended: whenever the run logs the final success marker, the marker
is the last event, and before it either the no-update decision was logged
(in which case the reaper is never invoked) or the reaper observed a
listing whose stale subset is empty. -/
theorem success_marker_only_after_reaper_or_noupdate (env : CloudEnv)
    (cfg : DeployConfig) (fuel : Nat) (out : RunOutcome) (tr : List RunEvent)
    (h : Deployment.run env cfg fuel = some (out, tr))
    (hs : successMarker ∈ tr) :
    ∃ tr', tr = tr' ++ [successMarker] ∧
      (RunEvent.logInfo
          "No update required, AMI ID, desired capacity, min size, and max size have not changed"
          ∈ tr' ∨
       ∃ l, RunEvent.observedInstances l ∈ tr' ∧
         (staleOf cfg.autoScalingGroup l).isEmpty = true) :=
  ((run_characterization env cfg fuel out tr h).1 hs).2

theorem success_marker_witness :
    ∃ tr', ([RunEvent.logInfo "Starting deployment process",
      RunEvent.logInfo "Initializing AWS SDK",
      RunEvent.logInfo "Retrieving details for Auto Scaling Group",
      RunEvent.call (AwsCall.describeAsg "grp"),
      RunEvent.logInfo "ASG Details",
      RunEvent.logInfo
        "Checking if Auto Scaling Group needs to be updated with new AMI or capacity settings",
      RunEvent.logInfo "Retrieving current AMI ID from launch template",
      RunEvent.call (AwsCall.describeLtVersion "lt-1" "1"),
      RunEvent.logInfo
        "AMI ID, desired capacity, min size, and max size have not changed, no update required",
      RunEvent.logInfo
        "No update required, AMI ID, desired capacity, min size, and max size have not changed",
      successMarker] : List RunEvent) = tr' ++ [successMarker] ∧
      (RunEvent.logInfo
          "No update required, AMI ID, desired capacity, min size, and max size have not changed"
          ∈ tr' ∨
       ∃ l, RunEvent.observedInstances l ∈ tr' ∧
         (staleOf wCfgSame.autoScalingGroup l).isEmpty = true) :=
  success_marker_only_after_reaper_or_noupdate wEnvNoChange wCfgSame 1
    RunOutcome.completed _ (by decide) (by decide)

/-! ### C9 -/

/-- C9: the orchestrator is fail-fast — every run whose outcome is not
"completed" never logs the final success marker and either logged an error
line or aborted with the escaping exception; and when the target group name
does not resolve (`ValueError`), the run returns early having issued zero
mutating control-plane calls — the later stages (starting with the
image-id lookup) are never attempted. -/
theorem fail_fast_spec (env : CloudEnv) (cfg : DeployConfig) (fuel : Nat) :
    (∀ out tr, Deployment.run env cfg fuel = some (out, tr) →
      out ≠ RunOutcome.completed →
      successMarker ∉ tr ∧
      ((∃ m, RunEvent.logError m ∈ tr) ∨ ∃ e, out = RunOutcome.raised e))
    ∧ (∀ m, env.describeAsg 0 cfg.autoScalingGroup =
        Except.error (AwsError.valueError m) →
      ∃ tr, Deployment.run env cfg fuel = some (RunOutcome.returnedEarly, tr) ∧
        tr.filter RunEvent.isMutatingEv = [] ∧
        RunEvent.logError ("Error retrieving ASG details: " ++ m) ∈ tr ∧
        (∀ ltId v, RunEvent.call (AwsCall.describeLtVersion ltId v) ∉ tr)) := by
  constructor
  · intro out tr h hne
    exact (run_characterization env cfg fuel out tr h).2 hne
  · intro m hm
    have h1 : get_current_asg_details env cfg.autoScalingGroup CallCounts.zero =
        some ⟨Except.error (AwsError.valueError m), ⟨1, 0, 0, 0, 0, 0, 0, 0⟩,
          [RunEvent.logInfo "Retrieving details for Auto Scaling Group",
           RunEvent.call (AwsCall.describeAsg cfg.autoScalingGroup)], 1, []⟩ := by
      apply tenacityRetry_fatal
      · unfold get_current_asg_details_attempt
        simp [hm, CallCounts.zero, clientErrorLog, AwsError.isRetryable]
      · rfl
    refine ⟨[RunEvent.logInfo "Starting deployment process",
      RunEvent.logInfo "Initializing AWS SDK",
      RunEvent.logInfo "Retrieving details for Auto Scaling Group",
      RunEvent.call (AwsCall.describeAsg cfg.autoScalingGroup),
      RunEvent.logError ("Error retrieving ASG details: " ++ m)], ?_, ?_, ?_, ?_⟩
    · unfold Deployment.run
      simp [h1]
    · simp [RunEvent.isMutatingEv, AwsCall.isMutating]
    · simp
    · intro ltId v
      simp

theorem fail_fast_witness :
    (∃ tr, Deployment.run wEnvNotFound wCfgNew 1 =
        some (RunOutcome.returnedEarly, tr) ∧
      tr.filter RunEvent.isMutatingEv = [] ∧
      RunEvent.logError ("Error retrieving ASG details: " ++
        "Auto Scaling Group grp not found") ∈ tr ∧
      (∀ ltId v, RunEvent.call (AwsCall.describeLtVersion ltId v) ∉ tr)) ∧
    (successMarker ∉ ([RunEvent.logInfo "Starting deployment process",
      RunEvent.logInfo "Initializing AWS SDK",
      RunEvent.logInfo "Retrieving details for Auto Scaling Group",
      RunEvent.call (AwsCall.describeAsg "grp"),
      RunEvent.logError ("Error retrieving ASG details: " ++
        "Auto Scaling Group grp not found")] : List RunEvent) ∧
      ((∃ m, RunEvent.logError m ∈ ([RunEvent.logInfo "Starting deployment process",
        RunEvent.logInfo "Initializing AWS SDK",
        RunEvent.logInfo "Retrieving details for Auto Scaling Group",
        RunEvent.call (AwsCall.describeAsg "grp"),
        RunEvent.logError ("Error retrieving ASG details: " ++
          "Auto Scaling Group grp not found")] : List RunEvent)) ∨
       ∃ e, RunOutcome.returnedEarly = RunOutcome.raised e)) :=
  ⟨(fail_fast_spec wEnvNotFound wCfgNew 1).2 "Auto Scaling Group grp not found" rfl,
   (fail_fast_spec wEnvNotFound wCfgNew 1).1 RunOutcome.returnedEarly _
     (by decide) (by decide)⟩

/-! ### C10 -/

/-- An event is a `create_launch_template_version` call. -/
def isCreateCallEv : RunEvent → Bool
  | RunEvent.call (AwsCall.createLtVersion _ _ _) => true
  | _ => false

/-- C10 counterexample: on a control plane where the launch-template
version creation succeeds and the subsequent group-update call fails with
the transient classification exactly once, the already-succeeded version
creation is re-executed — the update stage issues two
`create_launch_template_version` calls across its two attempts, refuting
the claim that only the failed single remote call is retried. -/
theorem retry_reruns_succeeded_calls_cex :
    (update_auto_scaling_group wEnvFlakyUpdate wAsg "ami-2" 2 2 2
        CallCounts.zero).map
      (fun rr => ((rr.trace.filter isCreateCallEv).length, rr.attempts,
        rr.result)) =
      some (2, 2, Except.ok (VersionResult.newVersion 3)) := by decide

/-- C10 amended: the retry decorator wraps each whole helper method rather
than each single remote call: when the version creation succeeds and the
group-update call fails transiently, the retry re-runs the entire
composite stage, so the image resolution and the launch-template-version
creation are executed a second time (publishing a second version) before
the group update is retried with the second version's reference. -/
theorem retry_wraps_whole_stage (env : CloudEnv) (asg : AsgDetails)
    (new_ami_id : String) (d mn mx : Int) (cur1 cur2 : String)
    (nv1 nv2 : Int) (m : String)
    (hres1 : env.describeLtVersion 0 asg.launchTemplate.launchTemplateId
      asg.launchTemplate.version = Except.ok cur1)
    (hne1 : cur1 ≠ new_ami_id)
    (hres2 : env.describeLtVersion 1 asg.launchTemplate.launchTemplateId
      asg.launchTemplate.version = Except.ok cur2)
    (hne2 : cur2 ≠ new_ami_id)
    (hcr1 : env.createLtVersion 0 asg.launchTemplate.launchTemplateId
      asg.launchTemplate.version new_ami_id = Except.ok nv1)
    (hcr2 : env.createLtVersion 1 asg.launchTemplate.launchTemplateId
      asg.launchTemplate.version new_ami_id = Except.ok nv2)
    (hupd1 : env.updateAsg 0 asg.autoScalingGroupName d mn mx
      (some ⟨asg.launchTemplate.launchTemplateId, toString nv1⟩) =
      Except.error (AwsError.clientError m))
    (hupd2 : env.updateAsg 1 asg.autoScalingGroupName d mn mx
      (some ⟨asg.launchTemplate.launchTemplateId, toString nv2⟩) =
      Except.ok ()) :
    ∃ rr, update_auto_scaling_group env asg new_ami_id d mn mx
        CallCounts.zero = some rr ∧
      rr.result = Except.ok (VersionResult.newVersion nv2) ∧
      rr.attempts = 2 ∧ rr.waits = [2] ∧
      (rr.trace.filter isCreateCallEv).length = 2 := by
  have hga1 : get_current_ami_id env asg.launchTemplate.launchTemplateId
      asg.launchTemplate.version CallCounts.zero =
      some ⟨Except.ok cur1, ⟨0, 1, 0, 0, 0, 0, 0, 0⟩,
        [RunEvent.logInfo "Retrieving current AMI ID from launch template",
         RunEvent.call (AwsCall.describeLtVersion
           asg.launchTemplate.launchTemplateId asg.launchTemplate.version)],
        1, []⟩ := by
    apply tenacityRetry_ok
    unfold get_current_ami_id_attempt
    simp [hres1, CallCounts.zero]
  have hatt1 : update_auto_scaling_group_attempt env asg new_ami_id d mn mx
      CallCounts.zero =
      some ⟨Except.error (AwsError.clientError m), ⟨0, 1, 1, 1, 0, 0, 0, 0⟩,
        [RunEvent.logInfo
           "Checking if Auto Scaling Group needs to be updated with new AMI or capacity settings",
         RunEvent.logInfo "Retrieving current AMI ID from launch template",
         RunEvent.call (AwsCall.describeLtVersion
           asg.launchTemplate.launchTemplateId asg.launchTemplate.version),
         RunEvent.logInfo "Updating Auto Scaling Group with new settings",
         RunEvent.logInfo "AMI ID has changed, creating new version of the launch template",
         RunEvent.call (AwsCall.createLtVersion
           asg.launchTemplate.launchTemplateId asg.launchTemplate.version new_ami_id),
         RunEvent.call (AwsCall.updateAsg asg.autoScalingGroupName d mn mx
           (some ⟨asg.launchTemplate.launchTemplateId, toString nv1⟩)),
         RunEvent.logError "ClientError updating Auto Scaling Group"]⟩ := by
    unfold update_auto_scaling_group_attempt
    simp [hga1, hne1, hcr1, hupd1, clientErrorLog, AwsError.isRetryable]
  have hga2 : get_current_ami_id env asg.launchTemplate.launchTemplateId
      asg.launchTemplate.version ⟨0, 1, 1, 1, 0, 0, 0, 0⟩ =
      some ⟨Except.ok cur2, ⟨0, 2, 1, 1, 0, 0, 0, 0⟩,
        [RunEvent.logInfo "Retrieving current AMI ID from launch template",
         RunEvent.call (AwsCall.describeLtVersion
           asg.launchTemplate.launchTemplateId asg.launchTemplate.version)],
        1, []⟩ := by
    apply tenacityRetry_ok
    unfold get_current_ami_id_attempt
    simp [hres2]
  have hatt2 : update_auto_scaling_group_attempt env asg new_ami_id d mn mx
      ⟨0, 1, 1, 1, 0, 0, 0, 0⟩ =
      some ⟨Except.ok (VersionResult.newVersion nv2), ⟨0, 2, 2, 2, 0, 0, 0, 0⟩,
        [RunEvent.logInfo
           "Checking if Auto Scaling Group needs to be updated with new AMI or capacity settings",
         RunEvent.logInfo "Retrieving current AMI ID from launch template",
         RunEvent.call (AwsCall.describeLtVersion
           asg.launchTemplate.launchTemplateId asg.launchTemplate.version),
         RunEvent.logInfo "Updating Auto Scaling Group with new settings",
         RunEvent.logInfo "AMI ID has changed, creating new version of the launch template",
         RunEvent.call (AwsCall.createLtVersion
           asg.launchTemplate.launchTemplateId asg.launchTemplate.version new_ami_id),
         RunEvent.call (AwsCall.updateAsg asg.autoScalingGroupName d mn mx
           (some ⟨asg.launchTemplate.launchTemplateId, toString nv2⟩))]⟩ := by
    unfold update_auto_scaling_group_attempt
    simp [hga2, hne2, hcr2, hupd2]
  have hretry := tenacityRetry_second_ok
    (update_auto_scaling_group_attempt env asg new_ami_id d mn mx)
    CallCounts.zero ⟨0, 1, 1, 1, 0, 0, 0, 0⟩ ⟨0, 2, 2, 2, 0, 0, 0, 0⟩
    (AwsError.clientError m) (VersionResult.newVersion nv2) _ _
    hatt1 rfl hatt2
  refine ⟨_, hretry, rfl, rfl, rfl, ?_⟩
  simp [isCreateCallEv]

theorem retry_wraps_whole_stage_witness :
    ∃ rr, update_auto_scaling_group wEnvFlakyUpdate wAsg "ami-2" 2 2 2
        CallCounts.zero = some rr ∧
      rr.result = Except.ok (VersionResult.newVersion 3) ∧
      rr.attempts = 2 ∧ rr.waits = [2] ∧
      (rr.trace.filter isCreateCallEv).length = 2 :=
  retry_wraps_whole_stage wEnvFlakyUpdate wAsg "ami-2" 2 2 2 "ami-1" "ami-1"
    2 3 "throttled" rfl (by decide) rfl (by decide) rfl rfl rfl rfl
